import Mathlib

/-!
Verification of the `regcli` session controller (src/context.rs, src/registry.rs)
against its natural-language specification.

The Rust code is shallowly embedded: pure functions become Lean functions,
`&mut self` methods become functions `AppContext → AppContext` (wrapped in
`Option` where the original can panic: `unwrap`, `unreachable!()`, `assert!`,
out-of-bounds indexing, or usize underflow — `Option.none` always models a
panic).  The external Windows-registry adapter (`windows_registry`) is modelled
by a record of pure fallible functions (`StoreModel`); handles are abstract
naturals.  Rust `String`s are Lean `String`s, but every operation on them is
implemented over the underlying `List Char` (Rust's byte-lexicographic order on
UTF-8 coincides with code-point lexicographic order, which is what `lexLt`
implements), so that all definitions evaluate inside the kernel.
-/

namespace Regcli

/-! ### Rust string primitives -/

/-- Code-point lexicographic strict order on character lists; this is exactly
Rust's `Ord for String` (byte order on UTF-8 agrees with code-point order). -/
def lexLt : List Char → List Char → Bool
  | [], [] => false
  | [], _ :: _ => true
  | _ :: _, [] => false
  | a :: as, b :: bs => if a < b then true else if a = b then lexLt as bs else false

/-- Rust `a < b` on `String`. -/
def strLt (a b : String) : Bool := lexLt a.data b.data

/-- Rust `a.cmp(&b)` on `String`. -/
def strCmp (a b : String) : Ordering :=
  if strLt a b then .lt else if a.data = b.data then .eq else .gt

/-- Rust `a == b` on `String` (byte equality). -/
def strEqb (a b : String) : Bool := decide (a.data = b.data)

/-- Rust `char::is_whitespace`: the Unicode `White_Space` property
(`PropList.txt`) — U+0009..U+000D, U+0020, U+0085, U+00A0, U+1680,
U+2000..U+200A, U+2028, U+2029, U+202F, U+205F, U+3000. -/
def rustIsWhitespace (c : Char) : Bool :=
  let n := c.toNat
  decide ((0x9 ≤ n ∧ n ≤ 0xD) ∨ n = 0x20 ∨ n = 0x85 ∨ n = 0xA0 ∨ n = 0x1680 ∨
    (0x2000 ≤ n ∧ n ≤ 0x200A) ∨ n = 0x2028 ∨ n = 0x2029 ∨ n = 0x202F ∨
    n = 0x205F ∨ n = 0x3000)

/-- Rust `str::trim`: strip `White_Space` characters from both ends. -/
def rustTrim (l : List Char) : List Char :=
  ((l.dropWhile rustIsWhitespace).reverse.dropWhile rustIsWhitespace).reverse

/-- Rust `str::len`: the UTF-8 byte length. -/
def utf8Len (l : List Char) : Nat := (l.map Char.utf8Size).sum

set_option maxHeartbeats 3200000 in
/-- The Unicode full lowercase mapping (`Lowercase_Mapping` from
`UnicodeData.txt` plus the unconditional mappings of `SpecialCasing.txt`,
UCD 14.0.0): every scalar value whose lowercase differs from itself, paired
with its mapping.  This is the data `char::to_lowercase` is compiled from;
scalar values absent here map to themselves. -/
def LOWERCASE_TABLE : List (Nat × List Nat) :=
  [(0x41, [0x61]), (0x42, [0x62]), (0x43, [0x63]), (0x44, [0x64]),
   (0x45, [0x65]), (0x46, [0x66]), (0x47, [0x67]), (0x48, [0x68]),
   (0x49, [0x69]), (0x4a, [0x6a]), (0x4b, [0x6b]), (0x4c, [0x6c]),
   (0x4d, [0x6d]), (0x4e, [0x6e]), (0x4f, [0x6f]), (0x50, [0x70]),
   (0x51, [0x71]), (0x52, [0x72]), (0x53, [0x73]), (0x54, [0x74]),
   (0x55, [0x75]), (0x56, [0x76]), (0x57, [0x77]), (0x58, [0x78]),
   (0x59, [0x79]), (0x5a, [0x7a]), (0xc0, [0xe0]), (0xc1, [0xe1]),
   (0xc2, [0xe2]), (0xc3, [0xe3]), (0xc4, [0xe4]), (0xc5, [0xe5]),
   (0xc6, [0xe6]), (0xc7, [0xe7]), (0xc8, [0xe8]), (0xc9, [0xe9]),
   (0xca, [0xea]), (0xcb, [0xeb]), (0xcc, [0xec]), (0xcd, [0xed]),
   (0xce, [0xee]), (0xcf, [0xef]), (0xd0, [0xf0]), (0xd1, [0xf1]),
   (0xd2, [0xf2]), (0xd3, [0xf3]), (0xd4, [0xf4]), (0xd5, [0xf5]),
   (0xd6, [0xf6]), (0xd8, [0xf8]), (0xd9, [0xf9]), (0xda, [0xfa]),
   (0xdb, [0xfb]), (0xdc, [0xfc]), (0xdd, [0xfd]), (0xde, [0xfe]),
   (0x100, [0x101]), (0x102, [0x103]), (0x104, [0x105]), (0x106, [0x107]),
   (0x108, [0x109]), (0x10a, [0x10b]), (0x10c, [0x10d]), (0x10e, [0x10f]),
   (0x110, [0x111]), (0x112, [0x113]), (0x114, [0x115]), (0x116, [0x117]),
   (0x118, [0x119]), (0x11a, [0x11b]), (0x11c, [0x11d]), (0x11e, [0x11f]),
   (0x120, [0x121]), (0x122, [0x123]), (0x124, [0x125]), (0x126, [0x127]),
   (0x128, [0x129]), (0x12a, [0x12b]), (0x12c, [0x12d]), (0x12e, [0x12f]),
   (0x130, [0x69, 0x307]), (0x132, [0x133]), (0x134, [0x135]), (0x136, [0x137]),
   (0x139, [0x13a]), (0x13b, [0x13c]), (0x13d, [0x13e]), (0x13f, [0x140]),
   (0x141, [0x142]), (0x143, [0x144]), (0x145, [0x146]), (0x147, [0x148]),
   (0x14a, [0x14b]), (0x14c, [0x14d]), (0x14e, [0x14f]), (0x150, [0x151]),
   (0x152, [0x153]), (0x154, [0x155]), (0x156, [0x157]), (0x158, [0x159]),
   (0x15a, [0x15b]), (0x15c, [0x15d]), (0x15e, [0x15f]), (0x160, [0x161]),
   (0x162, [0x163]), (0x164, [0x165]), (0x166, [0x167]), (0x168, [0x169]),
   (0x16a, [0x16b]), (0x16c, [0x16d]), (0x16e, [0x16f]), (0x170, [0x171]),
   (0x172, [0x173]), (0x174, [0x175]), (0x176, [0x177]), (0x178, [0xff]),
   (0x179, [0x17a]), (0x17b, [0x17c]), (0x17d, [0x17e]), (0x181, [0x253]),
   (0x182, [0x183]), (0x184, [0x185]), (0x186, [0x254]), (0x187, [0x188]),
   (0x189, [0x256]), (0x18a, [0x257]), (0x18b, [0x18c]), (0x18e, [0x1dd]),
   (0x18f, [0x259]), (0x190, [0x25b]), (0x191, [0x192]), (0x193, [0x260]),
   (0x194, [0x263]), (0x196, [0x269]), (0x197, [0x268]), (0x198, [0x199]),
   (0x19c, [0x26f]), (0x19d, [0x272]), (0x19f, [0x275]), (0x1a0, [0x1a1]),
   (0x1a2, [0x1a3]), (0x1a4, [0x1a5]), (0x1a6, [0x280]), (0x1a7, [0x1a8]),
   (0x1a9, [0x283]), (0x1ac, [0x1ad]), (0x1ae, [0x288]), (0x1af, [0x1b0]),
   (0x1b1, [0x28a]), (0x1b2, [0x28b]), (0x1b3, [0x1b4]), (0x1b5, [0x1b6]),
   (0x1b7, [0x292]), (0x1b8, [0x1b9]), (0x1bc, [0x1bd]), (0x1c4, [0x1c6]),
   (0x1c5, [0x1c6]), (0x1c7, [0x1c9]), (0x1c8, [0x1c9]), (0x1ca, [0x1cc]),
   (0x1cb, [0x1cc]), (0x1cd, [0x1ce]), (0x1cf, [0x1d0]), (0x1d1, [0x1d2]),
   (0x1d3, [0x1d4]), (0x1d5, [0x1d6]), (0x1d7, [0x1d8]), (0x1d9, [0x1da]),
   (0x1db, [0x1dc]), (0x1de, [0x1df]), (0x1e0, [0x1e1]), (0x1e2, [0x1e3]),
   (0x1e4, [0x1e5]), (0x1e6, [0x1e7]), (0x1e8, [0x1e9]), (0x1ea, [0x1eb]),
   (0x1ec, [0x1ed]), (0x1ee, [0x1ef]), (0x1f1, [0x1f3]), (0x1f2, [0x1f3]),
   (0x1f4, [0x1f5]), (0x1f6, [0x195]), (0x1f7, [0x1bf]), (0x1f8, [0x1f9]),
   (0x1fa, [0x1fb]), (0x1fc, [0x1fd]), (0x1fe, [0x1ff]), (0x200, [0x201]),
   (0x202, [0x203]), (0x204, [0x205]), (0x206, [0x207]), (0x208, [0x209]),
   (0x20a, [0x20b]), (0x20c, [0x20d]), (0x20e, [0x20f]), (0x210, [0x211]),
   (0x212, [0x213]), (0x214, [0x215]), (0x216, [0x217]), (0x218, [0x219]),
   (0x21a, [0x21b]), (0x21c, [0x21d]), (0x21e, [0x21f]), (0x220, [0x19e]),
   (0x222, [0x223]), (0x224, [0x225]), (0x226, [0x227]), (0x228, [0x229]),
   (0x22a, [0x22b]), (0x22c, [0x22d]), (0x22e, [0x22f]), (0x230, [0x231]),
   (0x232, [0x233]), (0x23a, [0x2c65]), (0x23b, [0x23c]), (0x23d, [0x19a]),
   (0x23e, [0x2c66]), (0x241, [0x242]), (0x243, [0x180]), (0x244, [0x289]),
   (0x245, [0x28c]), (0x246, [0x247]), (0x248, [0x249]), (0x24a, [0x24b]),
   (0x24c, [0x24d]), (0x24e, [0x24f]), (0x370, [0x371]), (0x372, [0x373]),
   (0x376, [0x377]), (0x37f, [0x3f3]), (0x386, [0x3ac]), (0x388, [0x3ad]),
   (0x389, [0x3ae]), (0x38a, [0x3af]), (0x38c, [0x3cc]), (0x38e, [0x3cd]),
   (0x38f, [0x3ce]), (0x391, [0x3b1]), (0x392, [0x3b2]), (0x393, [0x3b3]),
   (0x394, [0x3b4]), (0x395, [0x3b5]), (0x396, [0x3b6]), (0x397, [0x3b7]),
   (0x398, [0x3b8]), (0x399, [0x3b9]), (0x39a, [0x3ba]), (0x39b, [0x3bb]),
   (0x39c, [0x3bc]), (0x39d, [0x3bd]), (0x39e, [0x3be]), (0x39f, [0x3bf]),
   (0x3a0, [0x3c0]), (0x3a1, [0x3c1]), (0x3a3, [0x3c3]), (0x3a4, [0x3c4]),
   (0x3a5, [0x3c5]), (0x3a6, [0x3c6]), (0x3a7, [0x3c7]), (0x3a8, [0x3c8]),
   (0x3a9, [0x3c9]), (0x3aa, [0x3ca]), (0x3ab, [0x3cb]), (0x3cf, [0x3d7]),
   (0x3d8, [0x3d9]), (0x3da, [0x3db]), (0x3dc, [0x3dd]), (0x3de, [0x3df]),
   (0x3e0, [0x3e1]), (0x3e2, [0x3e3]), (0x3e4, [0x3e5]), (0x3e6, [0x3e7]),
   (0x3e8, [0x3e9]), (0x3ea, [0x3eb]), (0x3ec, [0x3ed]), (0x3ee, [0x3ef]),
   (0x3f4, [0x3b8]), (0x3f7, [0x3f8]), (0x3f9, [0x3f2]), (0x3fa, [0x3fb]),
   (0x3fd, [0x37b]), (0x3fe, [0x37c]), (0x3ff, [0x37d]), (0x400, [0x450]),
   (0x401, [0x451]), (0x402, [0x452]), (0x403, [0x453]), (0x404, [0x454]),
   (0x405, [0x455]), (0x406, [0x456]), (0x407, [0x457]), (0x408, [0x458]),
   (0x409, [0x459]), (0x40a, [0x45a]), (0x40b, [0x45b]), (0x40c, [0x45c]),
   (0x40d, [0x45d]), (0x40e, [0x45e]), (0x40f, [0x45f]), (0x410, [0x430]),
   (0x411, [0x431]), (0x412, [0x432]), (0x413, [0x433]), (0x414, [0x434]),
   (0x415, [0x435]), (0x416, [0x436]), (0x417, [0x437]), (0x418, [0x438]),
   (0x419, [0x439]), (0x41a, [0x43a]), (0x41b, [0x43b]), (0x41c, [0x43c]),
   (0x41d, [0x43d]), (0x41e, [0x43e]), (0x41f, [0x43f]), (0x420, [0x440]),
   (0x421, [0x441]), (0x422, [0x442]), (0x423, [0x443]), (0x424, [0x444]),
   (0x425, [0x445]), (0x426, [0x446]), (0x427, [0x447]), (0x428, [0x448]),
   (0x429, [0x449]), (0x42a, [0x44a]), (0x42b, [0x44b]), (0x42c, [0x44c]),
   (0x42d, [0x44d]), (0x42e, [0x44e]), (0x42f, [0x44f]), (0x460, [0x461]),
   (0x462, [0x463]), (0x464, [0x465]), (0x466, [0x467]), (0x468, [0x469]),
   (0x46a, [0x46b]), (0x46c, [0x46d]), (0x46e, [0x46f]), (0x470, [0x471]),
   (0x472, [0x473]), (0x474, [0x475]), (0x476, [0x477]), (0x478, [0x479]),
   (0x47a, [0x47b]), (0x47c, [0x47d]), (0x47e, [0x47f]), (0x480, [0x481]),
   (0x48a, [0x48b]), (0x48c, [0x48d]), (0x48e, [0x48f]), (0x490, [0x491]),
   (0x492, [0x493]), (0x494, [0x495]), (0x496, [0x497]), (0x498, [0x499]),
   (0x49a, [0x49b]), (0x49c, [0x49d]), (0x49e, [0x49f]), (0x4a0, [0x4a1]),
   (0x4a2, [0x4a3]), (0x4a4, [0x4a5]), (0x4a6, [0x4a7]), (0x4a8, [0x4a9]),
   (0x4aa, [0x4ab]), (0x4ac, [0x4ad]), (0x4ae, [0x4af]), (0x4b0, [0x4b1]),
   (0x4b2, [0x4b3]), (0x4b4, [0x4b5]), (0x4b6, [0x4b7]), (0x4b8, [0x4b9]),
   (0x4ba, [0x4bb]), (0x4bc, [0x4bd]), (0x4be, [0x4bf]), (0x4c0, [0x4cf]),
   (0x4c1, [0x4c2]), (0x4c3, [0x4c4]), (0x4c5, [0x4c6]), (0x4c7, [0x4c8]),
   (0x4c9, [0x4ca]), (0x4cb, [0x4cc]), (0x4cd, [0x4ce]), (0x4d0, [0x4d1]),
   (0x4d2, [0x4d3]), (0x4d4, [0x4d5]), (0x4d6, [0x4d7]), (0x4d8, [0x4d9]),
   (0x4da, [0x4db]), (0x4dc, [0x4dd]), (0x4de, [0x4df]), (0x4e0, [0x4e1]),
   (0x4e2, [0x4e3]), (0x4e4, [0x4e5]), (0x4e6, [0x4e7]), (0x4e8, [0x4e9]),
   (0x4ea, [0x4eb]), (0x4ec, [0x4ed]), (0x4ee, [0x4ef]), (0x4f0, [0x4f1]),
   (0x4f2, [0x4f3]), (0x4f4, [0x4f5]), (0x4f6, [0x4f7]), (0x4f8, [0x4f9]),
   (0x4fa, [0x4fb]), (0x4fc, [0x4fd]), (0x4fe, [0x4ff]), (0x500, [0x501]),
   (0x502, [0x503]), (0x504, [0x505]), (0x506, [0x507]), (0x508, [0x509]),
   (0x50a, [0x50b]), (0x50c, [0x50d]), (0x50e, [0x50f]), (0x510, [0x511]),
   (0x512, [0x513]), (0x514, [0x515]), (0x516, [0x517]), (0x518, [0x519]),
   (0x51a, [0x51b]), (0x51c, [0x51d]), (0x51e, [0x51f]), (0x520, [0x521]),
   (0x522, [0x523]), (0x524, [0x525]), (0x526, [0x527]), (0x528, [0x529]),
   (0x52a, [0x52b]), (0x52c, [0x52d]), (0x52e, [0x52f]), (0x531, [0x561]),
   (0x532, [0x562]), (0x533, [0x563]), (0x534, [0x564]), (0x535, [0x565]),
   (0x536, [0x566]), (0x537, [0x567]), (0x538, [0x568]), (0x539, [0x569]),
   (0x53a, [0x56a]), (0x53b, [0x56b]), (0x53c, [0x56c]), (0x53d, [0x56d]),
   (0x53e, [0x56e]), (0x53f, [0x56f]), (0x540, [0x570]), (0x541, [0x571]),
   (0x542, [0x572]), (0x543, [0x573]), (0x544, [0x574]), (0x545, [0x575]),
   (0x546, [0x576]), (0x547, [0x577]), (0x548, [0x578]), (0x549, [0x579]),
   (0x54a, [0x57a]), (0x54b, [0x57b]), (0x54c, [0x57c]), (0x54d, [0x57d]),
   (0x54e, [0x57e]), (0x54f, [0x57f]), (0x550, [0x580]), (0x551, [0x581]),
   (0x552, [0x582]), (0x553, [0x583]), (0x554, [0x584]), (0x555, [0x585]),
   (0x556, [0x586]), (0x10a0, [0x2d00]), (0x10a1, [0x2d01]), (0x10a2, [0x2d02]),
   (0x10a3, [0x2d03]), (0x10a4, [0x2d04]), (0x10a5, [0x2d05]), (0x10a6, [0x2d06]),
   (0x10a7, [0x2d07]), (0x10a8, [0x2d08]), (0x10a9, [0x2d09]), (0x10aa, [0x2d0a]),
   (0x10ab, [0x2d0b]), (0x10ac, [0x2d0c]), (0x10ad, [0x2d0d]), (0x10ae, [0x2d0e]),
   (0x10af, [0x2d0f]), (0x10b0, [0x2d10]), (0x10b1, [0x2d11]), (0x10b2, [0x2d12]),
   (0x10b3, [0x2d13]), (0x10b4, [0x2d14]), (0x10b5, [0x2d15]), (0x10b6, [0x2d16]),
   (0x10b7, [0x2d17]), (0x10b8, [0x2d18]), (0x10b9, [0x2d19]), (0x10ba, [0x2d1a]),
   (0x10bb, [0x2d1b]), (0x10bc, [0x2d1c]), (0x10bd, [0x2d1d]), (0x10be, [0x2d1e]),
   (0x10bf, [0x2d1f]), (0x10c0, [0x2d20]), (0x10c1, [0x2d21]), (0x10c2, [0x2d22]),
   (0x10c3, [0x2d23]), (0x10c4, [0x2d24]), (0x10c5, [0x2d25]), (0x10c7, [0x2d27]),
   (0x10cd, [0x2d2d]), (0x13a0, [0xab70]), (0x13a1, [0xab71]), (0x13a2, [0xab72]),
   (0x13a3, [0xab73]), (0x13a4, [0xab74]), (0x13a5, [0xab75]), (0x13a6, [0xab76]),
   (0x13a7, [0xab77]), (0x13a8, [0xab78]), (0x13a9, [0xab79]), (0x13aa, [0xab7a]),
   (0x13ab, [0xab7b]), (0x13ac, [0xab7c]), (0x13ad, [0xab7d]), (0x13ae, [0xab7e]),
   (0x13af, [0xab7f]), (0x13b0, [0xab80]), (0x13b1, [0xab81]), (0x13b2, [0xab82]),
   (0x13b3, [0xab83]), (0x13b4, [0xab84]), (0x13b5, [0xab85]), (0x13b6, [0xab86]),
   (0x13b7, [0xab87]), (0x13b8, [0xab88]), (0x13b9, [0xab89]), (0x13ba, [0xab8a]),
   (0x13bb, [0xab8b]), (0x13bc, [0xab8c]), (0x13bd, [0xab8d]), (0x13be, [0xab8e]),
   (0x13bf, [0xab8f]), (0x13c0, [0xab90]), (0x13c1, [0xab91]), (0x13c2, [0xab92]),
   (0x13c3, [0xab93]), (0x13c4, [0xab94]), (0x13c5, [0xab95]), (0x13c6, [0xab96]),
   (0x13c7, [0xab97]), (0x13c8, [0xab98]), (0x13c9, [0xab99]), (0x13ca, [0xab9a]),
   (0x13cb, [0xab9b]), (0x13cc, [0xab9c]), (0x13cd, [0xab9d]), (0x13ce, [0xab9e]),
   (0x13cf, [0xab9f]), (0x13d0, [0xaba0]), (0x13d1, [0xaba1]), (0x13d2, [0xaba2]),
   (0x13d3, [0xaba3]), (0x13d4, [0xaba4]), (0x13d5, [0xaba5]), (0x13d6, [0xaba6]),
   (0x13d7, [0xaba7]), (0x13d8, [0xaba8]), (0x13d9, [0xaba9]), (0x13da, [0xabaa]),
   (0x13db, [0xabab]), (0x13dc, [0xabac]), (0x13dd, [0xabad]), (0x13de, [0xabae]),
   (0x13df, [0xabaf]), (0x13e0, [0xabb0]), (0x13e1, [0xabb1]), (0x13e2, [0xabb2]),
   (0x13e3, [0xabb3]), (0x13e4, [0xabb4]), (0x13e5, [0xabb5]), (0x13e6, [0xabb6]),
   (0x13e7, [0xabb7]), (0x13e8, [0xabb8]), (0x13e9, [0xabb9]), (0x13ea, [0xabba]),
   (0x13eb, [0xabbb]), (0x13ec, [0xabbc]), (0x13ed, [0xabbd]), (0x13ee, [0xabbe]),
   (0x13ef, [0xabbf]), (0x13f0, [0x13f8]), (0x13f1, [0x13f9]), (0x13f2, [0x13fa]),
   (0x13f3, [0x13fb]), (0x13f4, [0x13fc]), (0x13f5, [0x13fd]), (0x1c90, [0x10d0]),
   (0x1c91, [0x10d1]), (0x1c92, [0x10d2]), (0x1c93, [0x10d3]), (0x1c94, [0x10d4]),
   (0x1c95, [0x10d5]), (0x1c96, [0x10d6]), (0x1c97, [0x10d7]), (0x1c98, [0x10d8]),
   (0x1c99, [0x10d9]), (0x1c9a, [0x10da]), (0x1c9b, [0x10db]), (0x1c9c, [0x10dc]),
   (0x1c9d, [0x10dd]), (0x1c9e, [0x10de]), (0x1c9f, [0x10df]), (0x1ca0, [0x10e0]),
   (0x1ca1, [0x10e1]), (0x1ca2, [0x10e2]), (0x1ca3, [0x10e3]), (0x1ca4, [0x10e4]),
   (0x1ca5, [0x10e5]), (0x1ca6, [0x10e6]), (0x1ca7, [0x10e7]), (0x1ca8, [0x10e8]),
   (0x1ca9, [0x10e9]), (0x1caa, [0x10ea]), (0x1cab, [0x10eb]), (0x1cac, [0x10ec]),
   (0x1cad, [0x10ed]), (0x1cae, [0x10ee]), (0x1caf, [0x10ef]), (0x1cb0, [0x10f0]),
   (0x1cb1, [0x10f1]), (0x1cb2, [0x10f2]), (0x1cb3, [0x10f3]), (0x1cb4, [0x10f4]),
   (0x1cb5, [0x10f5]), (0x1cb6, [0x10f6]), (0x1cb7, [0x10f7]), (0x1cb8, [0x10f8]),
   (0x1cb9, [0x10f9]), (0x1cba, [0x10fa]), (0x1cbd, [0x10fd]), (0x1cbe, [0x10fe]),
   (0x1cbf, [0x10ff]), (0x1e00, [0x1e01]), (0x1e02, [0x1e03]), (0x1e04, [0x1e05]),
   (0x1e06, [0x1e07]), (0x1e08, [0x1e09]), (0x1e0a, [0x1e0b]), (0x1e0c, [0x1e0d]),
   (0x1e0e, [0x1e0f]), (0x1e10, [0x1e11]), (0x1e12, [0x1e13]), (0x1e14, [0x1e15]),
   (0x1e16, [0x1e17]), (0x1e18, [0x1e19]), (0x1e1a, [0x1e1b]), (0x1e1c, [0x1e1d]),
   (0x1e1e, [0x1e1f]), (0x1e20, [0x1e21]), (0x1e22, [0x1e23]), (0x1e24, [0x1e25]),
   (0x1e26, [0x1e27]), (0x1e28, [0x1e29]), (0x1e2a, [0x1e2b]), (0x1e2c, [0x1e2d]),
   (0x1e2e, [0x1e2f]), (0x1e30, [0x1e31]), (0x1e32, [0x1e33]), (0x1e34, [0x1e35]),
   (0x1e36, [0x1e37]), (0x1e38, [0x1e39]), (0x1e3a, [0x1e3b]), (0x1e3c, [0x1e3d]),
   (0x1e3e, [0x1e3f]), (0x1e40, [0x1e41]), (0x1e42, [0x1e43]), (0x1e44, [0x1e45]),
   (0x1e46, [0x1e47]), (0x1e48, [0x1e49]), (0x1e4a, [0x1e4b]), (0x1e4c, [0x1e4d]),
   (0x1e4e, [0x1e4f]), (0x1e50, [0x1e51]), (0x1e52, [0x1e53]), (0x1e54, [0x1e55]),
   (0x1e56, [0x1e57]), (0x1e58, [0x1e59]), (0x1e5a, [0x1e5b]), (0x1e5c, [0x1e5d]),
   (0x1e5e, [0x1e5f]), (0x1e60, [0x1e61]), (0x1e62, [0x1e63]), (0x1e64, [0x1e65]),
   (0x1e66, [0x1e67]), (0x1e68, [0x1e69]), (0x1e6a, [0x1e6b]), (0x1e6c, [0x1e6d]),
   (0x1e6e, [0x1e6f]), (0x1e70, [0x1e71]), (0x1e72, [0x1e73]), (0x1e74, [0x1e75]),
   (0x1e76, [0x1e77]), (0x1e78, [0x1e79]), (0x1e7a, [0x1e7b]), (0x1e7c, [0x1e7d]),
   (0x1e7e, [0x1e7f]), (0x1e80, [0x1e81]), (0x1e82, [0x1e83]), (0x1e84, [0x1e85]),
   (0x1e86, [0x1e87]), (0x1e88, [0x1e89]), (0x1e8a, [0x1e8b]), (0x1e8c, [0x1e8d]),
   (0x1e8e, [0x1e8f]), (0x1e90, [0x1e91]), (0x1e92, [0x1e93]), (0x1e94, [0x1e95]),
   (0x1e9e, [0xdf]), (0x1ea0, [0x1ea1]), (0x1ea2, [0x1ea3]), (0x1ea4, [0x1ea5]),
   (0x1ea6, [0x1ea7]), (0x1ea8, [0x1ea9]), (0x1eaa, [0x1eab]), (0x1eac, [0x1ead]),
   (0x1eae, [0x1eaf]), (0x1eb0, [0x1eb1]), (0x1eb2, [0x1eb3]), (0x1eb4, [0x1eb5]),
   (0x1eb6, [0x1eb7]), (0x1eb8, [0x1eb9]), (0x1eba, [0x1ebb]), (0x1ebc, [0x1ebd]),
   (0x1ebe, [0x1ebf]), (0x1ec0, [0x1ec1]), (0x1ec2, [0x1ec3]), (0x1ec4, [0x1ec5]),
   (0x1ec6, [0x1ec7]), (0x1ec8, [0x1ec9]), (0x1eca, [0x1ecb]), (0x1ecc, [0x1ecd]),
   (0x1ece, [0x1ecf]), (0x1ed0, [0x1ed1]), (0x1ed2, [0x1ed3]), (0x1ed4, [0x1ed5]),
   (0x1ed6, [0x1ed7]), (0x1ed8, [0x1ed9]), (0x1eda, [0x1edb]), (0x1edc, [0x1edd]),
   (0x1ede, [0x1edf]), (0x1ee0, [0x1ee1]), (0x1ee2, [0x1ee3]), (0x1ee4, [0x1ee5]),
   (0x1ee6, [0x1ee7]), (0x1ee8, [0x1ee9]), (0x1eea, [0x1eeb]), (0x1eec, [0x1eed]),
   (0x1eee, [0x1eef]), (0x1ef0, [0x1ef1]), (0x1ef2, [0x1ef3]), (0x1ef4, [0x1ef5]),
   (0x1ef6, [0x1ef7]), (0x1ef8, [0x1ef9]), (0x1efa, [0x1efb]), (0x1efc, [0x1efd]),
   (0x1efe, [0x1eff]), (0x1f08, [0x1f00]), (0x1f09, [0x1f01]), (0x1f0a, [0x1f02]),
   (0x1f0b, [0x1f03]), (0x1f0c, [0x1f04]), (0x1f0d, [0x1f05]), (0x1f0e, [0x1f06]),
   (0x1f0f, [0x1f07]), (0x1f18, [0x1f10]), (0x1f19, [0x1f11]), (0x1f1a, [0x1f12]),
   (0x1f1b, [0x1f13]), (0x1f1c, [0x1f14]), (0x1f1d, [0x1f15]), (0x1f28, [0x1f20]),
   (0x1f29, [0x1f21]), (0x1f2a, [0x1f22]), (0x1f2b, [0x1f23]), (0x1f2c, [0x1f24]),
   (0x1f2d, [0x1f25]), (0x1f2e, [0x1f26]), (0x1f2f, [0x1f27]), (0x1f38, [0x1f30]),
   (0x1f39, [0x1f31]), (0x1f3a, [0x1f32]), (0x1f3b, [0x1f33]), (0x1f3c, [0x1f34]),
   (0x1f3d, [0x1f35]), (0x1f3e, [0x1f36]), (0x1f3f, [0x1f37]), (0x1f48, [0x1f40]),
   (0x1f49, [0x1f41]), (0x1f4a, [0x1f42]), (0x1f4b, [0x1f43]), (0x1f4c, [0x1f44]),
   (0x1f4d, [0x1f45]), (0x1f59, [0x1f51]), (0x1f5b, [0x1f53]), (0x1f5d, [0x1f55]),
   (0x1f5f, [0x1f57]), (0x1f68, [0x1f60]), (0x1f69, [0x1f61]), (0x1f6a, [0x1f62]),
   (0x1f6b, [0x1f63]), (0x1f6c, [0x1f64]), (0x1f6d, [0x1f65]), (0x1f6e, [0x1f66]),
   (0x1f6f, [0x1f67]), (0x1f88, [0x1f80]), (0x1f89, [0x1f81]), (0x1f8a, [0x1f82]),
   (0x1f8b, [0x1f83]), (0x1f8c, [0x1f84]), (0x1f8d, [0x1f85]), (0x1f8e, [0x1f86]),
   (0x1f8f, [0x1f87]), (0x1f98, [0x1f90]), (0x1f99, [0x1f91]), (0x1f9a, [0x1f92]),
   (0x1f9b, [0x1f93]), (0x1f9c, [0x1f94]), (0x1f9d, [0x1f95]), (0x1f9e, [0x1f96]),
   (0x1f9f, [0x1f97]), (0x1fa8, [0x1fa0]), (0x1fa9, [0x1fa1]), (0x1faa, [0x1fa2]),
   (0x1fab, [0x1fa3]), (0x1fac, [0x1fa4]), (0x1fad, [0x1fa5]), (0x1fae, [0x1fa6]),
   (0x1faf, [0x1fa7]), (0x1fb8, [0x1fb0]), (0x1fb9, [0x1fb1]), (0x1fba, [0x1f70]),
   (0x1fbb, [0x1f71]), (0x1fbc, [0x1fb3]), (0x1fc8, [0x1f72]), (0x1fc9, [0x1f73]),
   (0x1fca, [0x1f74]), (0x1fcb, [0x1f75]), (0x1fcc, [0x1fc3]), (0x1fd8, [0x1fd0]),
   (0x1fd9, [0x1fd1]), (0x1fda, [0x1f76]), (0x1fdb, [0x1f77]), (0x1fe8, [0x1fe0]),
   (0x1fe9, [0x1fe1]), (0x1fea, [0x1f7a]), (0x1feb, [0x1f7b]), (0x1fec, [0x1fe5]),
   (0x1ff8, [0x1f78]), (0x1ff9, [0x1f79]), (0x1ffa, [0x1f7c]), (0x1ffb, [0x1f7d]),
   (0x1ffc, [0x1ff3]), (0x2126, [0x3c9]), (0x212a, [0x6b]), (0x212b, [0xe5]),
   (0x2132, [0x214e]), (0x2160, [0x2170]), (0x2161, [0x2171]), (0x2162, [0x2172]),
   (0x2163, [0x2173]), (0x2164, [0x2174]), (0x2165, [0x2175]), (0x2166, [0x2176]),
   (0x2167, [0x2177]), (0x2168, [0x2178]), (0x2169, [0x2179]), (0x216a, [0x217a]),
   (0x216b, [0x217b]), (0x216c, [0x217c]), (0x216d, [0x217d]), (0x216e, [0x217e]),
   (0x216f, [0x217f]), (0x2183, [0x2184]), (0x24b6, [0x24d0]), (0x24b7, [0x24d1]),
   (0x24b8, [0x24d2]), (0x24b9, [0x24d3]), (0x24ba, [0x24d4]), (0x24bb, [0x24d5]),
   (0x24bc, [0x24d6]), (0x24bd, [0x24d7]), (0x24be, [0x24d8]), (0x24bf, [0x24d9]),
   (0x24c0, [0x24da]), (0x24c1, [0x24db]), (0x24c2, [0x24dc]), (0x24c3, [0x24dd]),
   (0x24c4, [0x24de]), (0x24c5, [0x24df]), (0x24c6, [0x24e0]), (0x24c7, [0x24e1]),
   (0x24c8, [0x24e2]), (0x24c9, [0x24e3]), (0x24ca, [0x24e4]), (0x24cb, [0x24e5]),
   (0x24cc, [0x24e6]), (0x24cd, [0x24e7]), (0x24ce, [0x24e8]), (0x24cf, [0x24e9]),
   (0x2c00, [0x2c30]), (0x2c01, [0x2c31]), (0x2c02, [0x2c32]), (0x2c03, [0x2c33]),
   (0x2c04, [0x2c34]), (0x2c05, [0x2c35]), (0x2c06, [0x2c36]), (0x2c07, [0x2c37]),
   (0x2c08, [0x2c38]), (0x2c09, [0x2c39]), (0x2c0a, [0x2c3a]), (0x2c0b, [0x2c3b]),
   (0x2c0c, [0x2c3c]), (0x2c0d, [0x2c3d]), (0x2c0e, [0x2c3e]), (0x2c0f, [0x2c3f]),
   (0x2c10, [0x2c40]), (0x2c11, [0x2c41]), (0x2c12, [0x2c42]), (0x2c13, [0x2c43]),
   (0x2c14, [0x2c44]), (0x2c15, [0x2c45]), (0x2c16, [0x2c46]), (0x2c17, [0x2c47]),
   (0x2c18, [0x2c48]), (0x2c19, [0x2c49]), (0x2c1a, [0x2c4a]), (0x2c1b, [0x2c4b]),
   (0x2c1c, [0x2c4c]), (0x2c1d, [0x2c4d]), (0x2c1e, [0x2c4e]), (0x2c1f, [0x2c4f]),
   (0x2c20, [0x2c50]), (0x2c21, [0x2c51]), (0x2c22, [0x2c52]), (0x2c23, [0x2c53]),
   (0x2c24, [0x2c54]), (0x2c25, [0x2c55]), (0x2c26, [0x2c56]), (0x2c27, [0x2c57]),
   (0x2c28, [0x2c58]), (0x2c29, [0x2c59]), (0x2c2a, [0x2c5a]), (0x2c2b, [0x2c5b]),
   (0x2c2c, [0x2c5c]), (0x2c2d, [0x2c5d]), (0x2c2e, [0x2c5e]), (0x2c2f, [0x2c5f]),
   (0x2c60, [0x2c61]), (0x2c62, [0x26b]), (0x2c63, [0x1d7d]), (0x2c64, [0x27d]),
   (0x2c67, [0x2c68]), (0x2c69, [0x2c6a]), (0x2c6b, [0x2c6c]), (0x2c6d, [0x251]),
   (0x2c6e, [0x271]), (0x2c6f, [0x250]), (0x2c70, [0x252]), (0x2c72, [0x2c73]),
   (0x2c75, [0x2c76]), (0x2c7e, [0x23f]), (0x2c7f, [0x240]), (0x2c80, [0x2c81]),
   (0x2c82, [0x2c83]), (0x2c84, [0x2c85]), (0x2c86, [0x2c87]), (0x2c88, [0x2c89]),
   (0x2c8a, [0x2c8b]), (0x2c8c, [0x2c8d]), (0x2c8e, [0x2c8f]), (0x2c90, [0x2c91]),
   (0x2c92, [0x2c93]), (0x2c94, [0x2c95]), (0x2c96, [0x2c97]), (0x2c98, [0x2c99]),
   (0x2c9a, [0x2c9b]), (0x2c9c, [0x2c9d]), (0x2c9e, [0x2c9f]), (0x2ca0, [0x2ca1]),
   (0x2ca2, [0x2ca3]), (0x2ca4, [0x2ca5]), (0x2ca6, [0x2ca7]), (0x2ca8, [0x2ca9]),
   (0x2caa, [0x2cab]), (0x2cac, [0x2cad]), (0x2cae, [0x2caf]), (0x2cb0, [0x2cb1]),
   (0x2cb2, [0x2cb3]), (0x2cb4, [0x2cb5]), (0x2cb6, [0x2cb7]), (0x2cb8, [0x2cb9]),
   (0x2cba, [0x2cbb]), (0x2cbc, [0x2cbd]), (0x2cbe, [0x2cbf]), (0x2cc0, [0x2cc1]),
   (0x2cc2, [0x2cc3]), (0x2cc4, [0x2cc5]), (0x2cc6, [0x2cc7]), (0x2cc8, [0x2cc9]),
   (0x2cca, [0x2ccb]), (0x2ccc, [0x2ccd]), (0x2cce, [0x2ccf]), (0x2cd0, [0x2cd1]),
   (0x2cd2, [0x2cd3]), (0x2cd4, [0x2cd5]), (0x2cd6, [0x2cd7]), (0x2cd8, [0x2cd9]),
   (0x2cda, [0x2cdb]), (0x2cdc, [0x2cdd]), (0x2cde, [0x2cdf]), (0x2ce0, [0x2ce1]),
   (0x2ce2, [0x2ce3]), (0x2ceb, [0x2cec]), (0x2ced, [0x2cee]), (0x2cf2, [0x2cf3]),
   (0xa640, [0xa641]), (0xa642, [0xa643]), (0xa644, [0xa645]), (0xa646, [0xa647]),
   (0xa648, [0xa649]), (0xa64a, [0xa64b]), (0xa64c, [0xa64d]), (0xa64e, [0xa64f]),
   (0xa650, [0xa651]), (0xa652, [0xa653]), (0xa654, [0xa655]), (0xa656, [0xa657]),
   (0xa658, [0xa659]), (0xa65a, [0xa65b]), (0xa65c, [0xa65d]), (0xa65e, [0xa65f]),
   (0xa660, [0xa661]), (0xa662, [0xa663]), (0xa664, [0xa665]), (0xa666, [0xa667]),
   (0xa668, [0xa669]), (0xa66a, [0xa66b]), (0xa66c, [0xa66d]), (0xa680, [0xa681]),
   (0xa682, [0xa683]), (0xa684, [0xa685]), (0xa686, [0xa687]), (0xa688, [0xa689]),
   (0xa68a, [0xa68b]), (0xa68c, [0xa68d]), (0xa68e, [0xa68f]), (0xa690, [0xa691]),
   (0xa692, [0xa693]), (0xa694, [0xa695]), (0xa696, [0xa697]), (0xa698, [0xa699]),
   (0xa69a, [0xa69b]), (0xa722, [0xa723]), (0xa724, [0xa725]), (0xa726, [0xa727]),
   (0xa728, [0xa729]), (0xa72a, [0xa72b]), (0xa72c, [0xa72d]), (0xa72e, [0xa72f]),
   (0xa732, [0xa733]), (0xa734, [0xa735]), (0xa736, [0xa737]), (0xa738, [0xa739]),
   (0xa73a, [0xa73b]), (0xa73c, [0xa73d]), (0xa73e, [0xa73f]), (0xa740, [0xa741]),
   (0xa742, [0xa743]), (0xa744, [0xa745]), (0xa746, [0xa747]), (0xa748, [0xa749]),
   (0xa74a, [0xa74b]), (0xa74c, [0xa74d]), (0xa74e, [0xa74f]), (0xa750, [0xa751]),
   (0xa752, [0xa753]), (0xa754, [0xa755]), (0xa756, [0xa757]), (0xa758, [0xa759]),
   (0xa75a, [0xa75b]), (0xa75c, [0xa75d]), (0xa75e, [0xa75f]), (0xa760, [0xa761]),
   (0xa762, [0xa763]), (0xa764, [0xa765]), (0xa766, [0xa767]), (0xa768, [0xa769]),
   (0xa76a, [0xa76b]), (0xa76c, [0xa76d]), (0xa76e, [0xa76f]), (0xa779, [0xa77a]),
   (0xa77b, [0xa77c]), (0xa77d, [0x1d79]), (0xa77e, [0xa77f]), (0xa780, [0xa781]),
   (0xa782, [0xa783]), (0xa784, [0xa785]), (0xa786, [0xa787]), (0xa78b, [0xa78c]),
   (0xa78d, [0x265]), (0xa790, [0xa791]), (0xa792, [0xa793]), (0xa796, [0xa797]),
   (0xa798, [0xa799]), (0xa79a, [0xa79b]), (0xa79c, [0xa79d]), (0xa79e, [0xa79f]),
   (0xa7a0, [0xa7a1]), (0xa7a2, [0xa7a3]), (0xa7a4, [0xa7a5]), (0xa7a6, [0xa7a7]),
   (0xa7a8, [0xa7a9]), (0xa7aa, [0x266]), (0xa7ab, [0x25c]), (0xa7ac, [0x261]),
   (0xa7ad, [0x26c]), (0xa7ae, [0x26a]), (0xa7b0, [0x29e]), (0xa7b1, [0x287]),
   (0xa7b2, [0x29d]), (0xa7b3, [0xab53]), (0xa7b4, [0xa7b5]), (0xa7b6, [0xa7b7]),
   (0xa7b8, [0xa7b9]), (0xa7ba, [0xa7bb]), (0xa7bc, [0xa7bd]), (0xa7be, [0xa7bf]),
   (0xa7c0, [0xa7c1]), (0xa7c2, [0xa7c3]), (0xa7c4, [0xa794]), (0xa7c5, [0x282]),
   (0xa7c6, [0x1d8e]), (0xa7c7, [0xa7c8]), (0xa7c9, [0xa7ca]), (0xa7d0, [0xa7d1]),
   (0xa7d6, [0xa7d7]), (0xa7d8, [0xa7d9]), (0xa7f5, [0xa7f6]), (0xff21, [0xff41]),
   (0xff22, [0xff42]), (0xff23, [0xff43]), (0xff24, [0xff44]), (0xff25, [0xff45]),
   (0xff26, [0xff46]), (0xff27, [0xff47]), (0xff28, [0xff48]), (0xff29, [0xff49]),
   (0xff2a, [0xff4a]), (0xff2b, [0xff4b]), (0xff2c, [0xff4c]), (0xff2d, [0xff4d]),
   (0xff2e, [0xff4e]), (0xff2f, [0xff4f]), (0xff30, [0xff50]), (0xff31, [0xff51]),
   (0xff32, [0xff52]), (0xff33, [0xff53]), (0xff34, [0xff54]), (0xff35, [0xff55]),
   (0xff36, [0xff56]), (0xff37, [0xff57]), (0xff38, [0xff58]), (0xff39, [0xff59]),
   (0xff3a, [0xff5a]), (0x10400, [0x10428]), (0x10401, [0x10429]), (0x10402, [0x1042a]),
   (0x10403, [0x1042b]), (0x10404, [0x1042c]), (0x10405, [0x1042d]), (0x10406, [0x1042e]),
   (0x10407, [0x1042f]), (0x10408, [0x10430]), (0x10409, [0x10431]), (0x1040a, [0x10432]),
   (0x1040b, [0x10433]), (0x1040c, [0x10434]), (0x1040d, [0x10435]), (0x1040e, [0x10436]),
   (0x1040f, [0x10437]), (0x10410, [0x10438]), (0x10411, [0x10439]), (0x10412, [0x1043a]),
   (0x10413, [0x1043b]), (0x10414, [0x1043c]), (0x10415, [0x1043d]), (0x10416, [0x1043e]),
   (0x10417, [0x1043f]), (0x10418, [0x10440]), (0x10419, [0x10441]), (0x1041a, [0x10442]),
   (0x1041b, [0x10443]), (0x1041c, [0x10444]), (0x1041d, [0x10445]), (0x1041e, [0x10446]),
   (0x1041f, [0x10447]), (0x10420, [0x10448]), (0x10421, [0x10449]), (0x10422, [0x1044a]),
   (0x10423, [0x1044b]), (0x10424, [0x1044c]), (0x10425, [0x1044d]), (0x10426, [0x1044e]),
   (0x10427, [0x1044f]), (0x104b0, [0x104d8]), (0x104b1, [0x104d9]), (0x104b2, [0x104da]),
   (0x104b3, [0x104db]), (0x104b4, [0x104dc]), (0x104b5, [0x104dd]), (0x104b6, [0x104de]),
   (0x104b7, [0x104df]), (0x104b8, [0x104e0]), (0x104b9, [0x104e1]), (0x104ba, [0x104e2]),
   (0x104bb, [0x104e3]), (0x104bc, [0x104e4]), (0x104bd, [0x104e5]), (0x104be, [0x104e6]),
   (0x104bf, [0x104e7]), (0x104c0, [0x104e8]), (0x104c1, [0x104e9]), (0x104c2, [0x104ea]),
   (0x104c3, [0x104eb]), (0x104c4, [0x104ec]), (0x104c5, [0x104ed]), (0x104c6, [0x104ee]),
   (0x104c7, [0x104ef]), (0x104c8, [0x104f0]), (0x104c9, [0x104f1]), (0x104ca, [0x104f2]),
   (0x104cb, [0x104f3]), (0x104cc, [0x104f4]), (0x104cd, [0x104f5]), (0x104ce, [0x104f6]),
   (0x104cf, [0x104f7]), (0x104d0, [0x104f8]), (0x104d1, [0x104f9]), (0x104d2, [0x104fa]),
   (0x104d3, [0x104fb]), (0x10570, [0x10597]), (0x10571, [0x10598]), (0x10572, [0x10599]),
   (0x10573, [0x1059a]), (0x10574, [0x1059b]), (0x10575, [0x1059c]), (0x10576, [0x1059d]),
   (0x10577, [0x1059e]), (0x10578, [0x1059f]), (0x10579, [0x105a0]), (0x1057a, [0x105a1]),
   (0x1057c, [0x105a3]), (0x1057d, [0x105a4]), (0x1057e, [0x105a5]), (0x1057f, [0x105a6]),
   (0x10580, [0x105a7]), (0x10581, [0x105a8]), (0x10582, [0x105a9]), (0x10583, [0x105aa]),
   (0x10584, [0x105ab]), (0x10585, [0x105ac]), (0x10586, [0x105ad]), (0x10587, [0x105ae]),
   (0x10588, [0x105af]), (0x10589, [0x105b0]), (0x1058a, [0x105b1]), (0x1058c, [0x105b3]),
   (0x1058d, [0x105b4]), (0x1058e, [0x105b5]), (0x1058f, [0x105b6]), (0x10590, [0x105b7]),
   (0x10591, [0x105b8]), (0x10592, [0x105b9]), (0x10594, [0x105bb]), (0x10595, [0x105bc]),
   (0x10c80, [0x10cc0]), (0x10c81, [0x10cc1]), (0x10c82, [0x10cc2]), (0x10c83, [0x10cc3]),
   (0x10c84, [0x10cc4]), (0x10c85, [0x10cc5]), (0x10c86, [0x10cc6]), (0x10c87, [0x10cc7]),
   (0x10c88, [0x10cc8]), (0x10c89, [0x10cc9]), (0x10c8a, [0x10cca]), (0x10c8b, [0x10ccb]),
   (0x10c8c, [0x10ccc]), (0x10c8d, [0x10ccd]), (0x10c8e, [0x10cce]), (0x10c8f, [0x10ccf]),
   (0x10c90, [0x10cd0]), (0x10c91, [0x10cd1]), (0x10c92, [0x10cd2]), (0x10c93, [0x10cd3]),
   (0x10c94, [0x10cd4]), (0x10c95, [0x10cd5]), (0x10c96, [0x10cd6]), (0x10c97, [0x10cd7]),
   (0x10c98, [0x10cd8]), (0x10c99, [0x10cd9]), (0x10c9a, [0x10cda]), (0x10c9b, [0x10cdb]),
   (0x10c9c, [0x10cdc]), (0x10c9d, [0x10cdd]), (0x10c9e, [0x10cde]), (0x10c9f, [0x10cdf]),
   (0x10ca0, [0x10ce0]), (0x10ca1, [0x10ce1]), (0x10ca2, [0x10ce2]), (0x10ca3, [0x10ce3]),
   (0x10ca4, [0x10ce4]), (0x10ca5, [0x10ce5]), (0x10ca6, [0x10ce6]), (0x10ca7, [0x10ce7]),
   (0x10ca8, [0x10ce8]), (0x10ca9, [0x10ce9]), (0x10caa, [0x10cea]), (0x10cab, [0x10ceb]),
   (0x10cac, [0x10cec]), (0x10cad, [0x10ced]), (0x10cae, [0x10cee]), (0x10caf, [0x10cef]),
   (0x10cb0, [0x10cf0]), (0x10cb1, [0x10cf1]), (0x10cb2, [0x10cf2]), (0x118a0, [0x118c0]),
   (0x118a1, [0x118c1]), (0x118a2, [0x118c2]), (0x118a3, [0x118c3]), (0x118a4, [0x118c4]),
   (0x118a5, [0x118c5]), (0x118a6, [0x118c6]), (0x118a7, [0x118c7]), (0x118a8, [0x118c8]),
   (0x118a9, [0x118c9]), (0x118aa, [0x118ca]), (0x118ab, [0x118cb]), (0x118ac, [0x118cc]),
   (0x118ad, [0x118cd]), (0x118ae, [0x118ce]), (0x118af, [0x118cf]), (0x118b0, [0x118d0]),
   (0x118b1, [0x118d1]), (0x118b2, [0x118d2]), (0x118b3, [0x118d3]), (0x118b4, [0x118d4]),
   (0x118b5, [0x118d5]), (0x118b6, [0x118d6]), (0x118b7, [0x118d7]), (0x118b8, [0x118d8]),
   (0x118b9, [0x118d9]), (0x118ba, [0x118da]), (0x118bb, [0x118db]), (0x118bc, [0x118dc]),
   (0x118bd, [0x118dd]), (0x118be, [0x118de]), (0x118bf, [0x118df]), (0x16e40, [0x16e60]),
   (0x16e41, [0x16e61]), (0x16e42, [0x16e62]), (0x16e43, [0x16e63]), (0x16e44, [0x16e64]),
   (0x16e45, [0x16e65]), (0x16e46, [0x16e66]), (0x16e47, [0x16e67]), (0x16e48, [0x16e68]),
   (0x16e49, [0x16e69]), (0x16e4a, [0x16e6a]), (0x16e4b, [0x16e6b]), (0x16e4c, [0x16e6c]),
   (0x16e4d, [0x16e6d]), (0x16e4e, [0x16e6e]), (0x16e4f, [0x16e6f]), (0x16e50, [0x16e70]),
   (0x16e51, [0x16e71]), (0x16e52, [0x16e72]), (0x16e53, [0x16e73]), (0x16e54, [0x16e74]),
   (0x16e55, [0x16e75]), (0x16e56, [0x16e76]), (0x16e57, [0x16e77]), (0x16e58, [0x16e78]),
   (0x16e59, [0x16e79]), (0x16e5a, [0x16e7a]), (0x16e5b, [0x16e7b]), (0x16e5c, [0x16e7c]),
   (0x16e5d, [0x16e7d]), (0x16e5e, [0x16e7e]), (0x16e5f, [0x16e7f]), (0x1e900, [0x1e922]),
   (0x1e901, [0x1e923]), (0x1e902, [0x1e924]), (0x1e903, [0x1e925]), (0x1e904, [0x1e926]),
   (0x1e905, [0x1e927]), (0x1e906, [0x1e928]), (0x1e907, [0x1e929]), (0x1e908, [0x1e92a]),
   (0x1e909, [0x1e92b]), (0x1e90a, [0x1e92c]), (0x1e90b, [0x1e92d]), (0x1e90c, [0x1e92e]),
   (0x1e90d, [0x1e92f]), (0x1e90e, [0x1e930]), (0x1e90f, [0x1e931]), (0x1e910, [0x1e932]),
   (0x1e911, [0x1e933]), (0x1e912, [0x1e934]), (0x1e913, [0x1e935]), (0x1e914, [0x1e936]),
   (0x1e915, [0x1e937]), (0x1e916, [0x1e938]), (0x1e917, [0x1e939]), (0x1e918, [0x1e93a]),
   (0x1e919, [0x1e93b]), (0x1e91a, [0x1e93c]), (0x1e91b, [0x1e93d]), (0x1e91c, [0x1e93e]),
   (0x1e91d, [0x1e93f]), (0x1e91e, [0x1e940]), (0x1e91f, [0x1e941]), (0x1e920, [0x1e942]),
   (0x1e921, [0x1e943])]

set_option maxHeartbeats 1600000 in
/-- Scalar-value ranges of the `Cased` derived property
(`DerivedCoreProperties.txt`, UCD 14.0.0), used by the final-sigma rule of
`str::to_lowercase`. -/
def CASED_RANGES : List (Nat × Nat) :=
  [(0x41, 0x5a), (0x61, 0x7a), (0xaa, 0xaa), (0xb5, 0xb5), (0xba, 0xba), (0xc0, 0xd6),
   (0xd8, 0xf6), (0xf8, 0x1ba), (0x1bc, 0x1bf), (0x1c4, 0x293), (0x295, 0x2b8), (0x2c0, 0x2c1),
   (0x2e0, 0x2e4), (0x345, 0x345), (0x370, 0x373), (0x376, 0x377), (0x37a, 0x37d), (0x37f, 0x37f),
   (0x386, 0x386), (0x388, 0x38a), (0x38c, 0x38c), (0x38e, 0x3a1), (0x3a3, 0x3f5), (0x3f7, 0x481),
   (0x48a, 0x52f), (0x531, 0x556), (0x560, 0x588), (0x10a0, 0x10c5), (0x10c7, 0x10c7), (0x10cd, 0x10cd),
   (0x10d0, 0x10fa), (0x10fd, 0x10ff), (0x13a0, 0x13f5), (0x13f8, 0x13fd), (0x1c80, 0x1c88), (0x1c90, 0x1cba),
   (0x1cbd, 0x1cbf), (0x1d00, 0x1dbf), (0x1e00, 0x1f15), (0x1f18, 0x1f1d), (0x1f20, 0x1f45), (0x1f48, 0x1f4d),
   (0x1f50, 0x1f57), (0x1f59, 0x1f59), (0x1f5b, 0x1f5b), (0x1f5d, 0x1f5d), (0x1f5f, 0x1f7d), (0x1f80, 0x1fb4),
   (0x1fb6, 0x1fbc), (0x1fbe, 0x1fbe), (0x1fc2, 0x1fc4), (0x1fc6, 0x1fcc), (0x1fd0, 0x1fd3), (0x1fd6, 0x1fdb),
   (0x1fe0, 0x1fec), (0x1ff2, 0x1ff4), (0x1ff6, 0x1ffc), (0x2071, 0x2071), (0x207f, 0x207f), (0x2090, 0x209c),
   (0x2102, 0x2102), (0x2107, 0x2107), (0x210a, 0x2113), (0x2115, 0x2115), (0x2119, 0x211d), (0x2124, 0x2124),
   (0x2126, 0x2126), (0x2128, 0x2128), (0x212a, 0x212d), (0x212f, 0x2134), (0x2139, 0x2139), (0x213c, 0x213f),
   (0x2145, 0x2149), (0x214e, 0x214e), (0x2160, 0x217f), (0x2183, 0x2184), (0x24b6, 0x24e9), (0x2c00, 0x2ce4),
   (0x2ceb, 0x2cee), (0x2cf2, 0x2cf3), (0x2d00, 0x2d25), (0x2d27, 0x2d27), (0x2d2d, 0x2d2d), (0xa640, 0xa66d),
   (0xa680, 0xa69d), (0xa722, 0xa787), (0xa78b, 0xa78e), (0xa790, 0xa7ca), (0xa7d0, 0xa7d1), (0xa7d3, 0xa7d3),
   (0xa7d5, 0xa7d9), (0xa7f5, 0xa7f6), (0xa7f8, 0xa7fa), (0xab30, 0xab5a), (0xab5c, 0xab68), (0xab70, 0xabbf),
   (0xfb00, 0xfb06), (0xfb13, 0xfb17), (0xff21, 0xff3a), (0xff41, 0xff5a), (0x10400, 0x1044f), (0x104b0, 0x104d3),
   (0x104d8, 0x104fb), (0x10570, 0x1057a), (0x1057c, 0x1058a), (0x1058c, 0x10592), (0x10594, 0x10595), (0x10597, 0x105a1),
   (0x105a3, 0x105b1), (0x105b3, 0x105b9), (0x105bb, 0x105bc), (0x10780, 0x10780), (0x10783, 0x10785), (0x10787, 0x107b0),
   (0x107b2, 0x107ba), (0x10c80, 0x10cb2), (0x10cc0, 0x10cf2), (0x118a0, 0x118df), (0x16e40, 0x16e7f), (0x1d400, 0x1d454),
   (0x1d456, 0x1d49c), (0x1d49e, 0x1d49f), (0x1d4a2, 0x1d4a2), (0x1d4a5, 0x1d4a6), (0x1d4a9, 0x1d4ac), (0x1d4ae, 0x1d4b9),
   (0x1d4bb, 0x1d4bb), (0x1d4bd, 0x1d4c3), (0x1d4c5, 0x1d505), (0x1d507, 0x1d50a), (0x1d50d, 0x1d514), (0x1d516, 0x1d51c),
   (0x1d51e, 0x1d539), (0x1d53b, 0x1d53e), (0x1d540, 0x1d544), (0x1d546, 0x1d546), (0x1d54a, 0x1d550), (0x1d552, 0x1d6a5),
   (0x1d6a8, 0x1d6c0), (0x1d6c2, 0x1d6da), (0x1d6dc, 0x1d6fa), (0x1d6fc, 0x1d714), (0x1d716, 0x1d734), (0x1d736, 0x1d74e),
   (0x1d750, 0x1d76e), (0x1d770, 0x1d788), (0x1d78a, 0x1d7a8), (0x1d7aa, 0x1d7c2), (0x1d7c4, 0x1d7cb), (0x1df00, 0x1df09),
   (0x1df0b, 0x1df1e), (0x1e900, 0x1e943), (0x1f130, 0x1f149), (0x1f150, 0x1f169), (0x1f170, 0x1f189)]

set_option maxHeartbeats 1600000 in
/-- Scalar-value ranges of the `Case_Ignorable` derived property
(`DerivedCoreProperties.txt`, UCD 14.0.0), used by the final-sigma rule of
`str::to_lowercase`. -/
def CASE_IGNORABLE_RANGES : List (Nat × Nat) :=
  [(0x27, 0x27), (0x2e, 0x2e), (0x3a, 0x3a), (0x5e, 0x5e), (0x60, 0x60), (0xa8, 0xa8),
   (0xad, 0xad), (0xaf, 0xaf), (0xb4, 0xb4), (0xb7, 0xb8), (0x2b0, 0x36f), (0x374, 0x375),
   (0x37a, 0x37a), (0x384, 0x385), (0x387, 0x387), (0x483, 0x489), (0x559, 0x559), (0x55f, 0x55f),
   (0x591, 0x5bd), (0x5bf, 0x5bf), (0x5c1, 0x5c2), (0x5c4, 0x5c5), (0x5c7, 0x5c7), (0x5f4, 0x5f4),
   (0x600, 0x605), (0x610, 0x61a), (0x61c, 0x61c), (0x640, 0x640), (0x64b, 0x65f), (0x670, 0x670),
   (0x6d6, 0x6dd), (0x6df, 0x6e8), (0x6ea, 0x6ed), (0x70f, 0x70f), (0x711, 0x711), (0x730, 0x74a),
   (0x7a6, 0x7b0), (0x7eb, 0x7f5), (0x7fa, 0x7fa), (0x7fd, 0x7fd), (0x816, 0x82d), (0x859, 0x85b),
   (0x888, 0x888), (0x890, 0x891), (0x898, 0x89f), (0x8c9, 0x902), (0x93a, 0x93a), (0x93c, 0x93c),
   (0x941, 0x948), (0x94d, 0x94d), (0x951, 0x957), (0x962, 0x963), (0x971, 0x971), (0x981, 0x981),
   (0x9bc, 0x9bc), (0x9c1, 0x9c4), (0x9cd, 0x9cd), (0x9e2, 0x9e3), (0x9fe, 0x9fe), (0xa01, 0xa02),
   (0xa3c, 0xa3c), (0xa41, 0xa42), (0xa47, 0xa48), (0xa4b, 0xa4d), (0xa51, 0xa51), (0xa70, 0xa71),
   (0xa75, 0xa75), (0xa81, 0xa82), (0xabc, 0xabc), (0xac1, 0xac5), (0xac7, 0xac8), (0xacd, 0xacd),
   (0xae2, 0xae3), (0xafa, 0xaff), (0xb01, 0xb01), (0xb3c, 0xb3c), (0xb3f, 0xb3f), (0xb41, 0xb44),
   (0xb4d, 0xb4d), (0xb55, 0xb56), (0xb62, 0xb63), (0xb82, 0xb82), (0xbc0, 0xbc0), (0xbcd, 0xbcd),
   (0xc00, 0xc00), (0xc04, 0xc04), (0xc3c, 0xc3c), (0xc3e, 0xc40), (0xc46, 0xc48), (0xc4a, 0xc4d),
   (0xc55, 0xc56), (0xc62, 0xc63), (0xc81, 0xc81), (0xcbc, 0xcbc), (0xcbf, 0xcbf), (0xcc6, 0xcc6),
   (0xccc, 0xccd), (0xce2, 0xce3), (0xd00, 0xd01), (0xd3b, 0xd3c), (0xd41, 0xd44), (0xd4d, 0xd4d),
   (0xd62, 0xd63), (0xd81, 0xd81), (0xdca, 0xdca), (0xdd2, 0xdd4), (0xdd6, 0xdd6), (0xe31, 0xe31),
   (0xe34, 0xe3a), (0xe46, 0xe4e), (0xeb1, 0xeb1), (0xeb4, 0xebc), (0xec6, 0xec6), (0xec8, 0xecd),
   (0xf18, 0xf19), (0xf35, 0xf35), (0xf37, 0xf37), (0xf39, 0xf39), (0xf71, 0xf7e), (0xf80, 0xf84),
   (0xf86, 0xf87), (0xf8d, 0xf97), (0xf99, 0xfbc), (0xfc6, 0xfc6), (0x102d, 0x1030), (0x1032, 0x1037),
   (0x1039, 0x103a), (0x103d, 0x103e), (0x1058, 0x1059), (0x105e, 0x1060), (0x1071, 0x1074), (0x1082, 0x1082),
   (0x1085, 0x1086), (0x108d, 0x108d), (0x109d, 0x109d), (0x10fc, 0x10fc), (0x135d, 0x135f), (0x1712, 0x1714),
   (0x1732, 0x1733), (0x1752, 0x1753), (0x1772, 0x1773), (0x17b4, 0x17b5), (0x17b7, 0x17bd), (0x17c6, 0x17c6),
   (0x17c9, 0x17d3), (0x17d7, 0x17d7), (0x17dd, 0x17dd), (0x180b, 0x180f), (0x1843, 0x1843), (0x1885, 0x1886),
   (0x18a9, 0x18a9), (0x1920, 0x1922), (0x1927, 0x1928), (0x1932, 0x1932), (0x1939, 0x193b), (0x1a17, 0x1a18),
   (0x1a1b, 0x1a1b), (0x1a56, 0x1a56), (0x1a58, 0x1a5e), (0x1a60, 0x1a60), (0x1a62, 0x1a62), (0x1a65, 0x1a6c),
   (0x1a73, 0x1a7c), (0x1a7f, 0x1a7f), (0x1aa7, 0x1aa7), (0x1ab0, 0x1ace), (0x1b00, 0x1b03), (0x1b34, 0x1b34),
   (0x1b36, 0x1b3a), (0x1b3c, 0x1b3c), (0x1b42, 0x1b42), (0x1b6b, 0x1b73), (0x1b80, 0x1b81), (0x1ba2, 0x1ba5),
   (0x1ba8, 0x1ba9), (0x1bab, 0x1bad), (0x1be6, 0x1be6), (0x1be8, 0x1be9), (0x1bed, 0x1bed), (0x1bef, 0x1bf1),
   (0x1c2c, 0x1c33), (0x1c36, 0x1c37), (0x1c78, 0x1c7d), (0x1cd0, 0x1cd2), (0x1cd4, 0x1ce0), (0x1ce2, 0x1ce8),
   (0x1ced, 0x1ced), (0x1cf4, 0x1cf4), (0x1cf8, 0x1cf9), (0x1d2c, 0x1d6a), (0x1d78, 0x1d78), (0x1d9b, 0x1dff),
   (0x1fbd, 0x1fbd), (0x1fbf, 0x1fc1), (0x1fcd, 0x1fcf), (0x1fdd, 0x1fdf), (0x1fed, 0x1fef), (0x1ffd, 0x1ffe),
   (0x200b, 0x200f), (0x2018, 0x2019), (0x2024, 0x2024), (0x2027, 0x2027), (0x202a, 0x202e), (0x2060, 0x2064),
   (0x2066, 0x206f), (0x2071, 0x2071), (0x207f, 0x207f), (0x2090, 0x209c), (0x20d0, 0x20f0), (0x2c7c, 0x2c7d),
   (0x2cef, 0x2cf1), (0x2d6f, 0x2d6f), (0x2d7f, 0x2d7f), (0x2de0, 0x2dff), (0x2e2f, 0x2e2f), (0x3005, 0x3005),
   (0x302a, 0x302d), (0x3031, 0x3035), (0x303b, 0x303b), (0x3099, 0x309e), (0x30fc, 0x30fe), (0xa015, 0xa015),
   (0xa4f8, 0xa4fd), (0xa60c, 0xa60c), (0xa66f, 0xa672), (0xa674, 0xa67d), (0xa67f, 0xa67f), (0xa69c, 0xa69f),
   (0xa6f0, 0xa6f1), (0xa700, 0xa721), (0xa770, 0xa770), (0xa788, 0xa78a), (0xa7f2, 0xa7f4), (0xa7f8, 0xa7f9),
   (0xa802, 0xa802), (0xa806, 0xa806), (0xa80b, 0xa80b), (0xa825, 0xa826), (0xa82c, 0xa82c), (0xa8c4, 0xa8c5),
   (0xa8e0, 0xa8f1), (0xa8ff, 0xa8ff), (0xa926, 0xa92d), (0xa947, 0xa951), (0xa980, 0xa982), (0xa9b3, 0xa9b3),
   (0xa9b6, 0xa9b9), (0xa9bc, 0xa9bd), (0xa9cf, 0xa9cf), (0xa9e5, 0xa9e6), (0xaa29, 0xaa2e), (0xaa31, 0xaa32),
   (0xaa35, 0xaa36), (0xaa43, 0xaa43), (0xaa4c, 0xaa4c), (0xaa70, 0xaa70), (0xaa7c, 0xaa7c), (0xaab0, 0xaab0),
   (0xaab2, 0xaab4), (0xaab7, 0xaab8), (0xaabe, 0xaabf), (0xaac1, 0xaac1), (0xaadd, 0xaadd), (0xaaec, 0xaaed),
   (0xaaf3, 0xaaf4), (0xaaf6, 0xaaf6), (0xab5b, 0xab5f), (0xab69, 0xab6b), (0xabe5, 0xabe5), (0xabe8, 0xabe8),
   (0xabed, 0xabed), (0xfb1e, 0xfb1e), (0xfbb2, 0xfbc2), (0xfe00, 0xfe0f), (0xfe13, 0xfe13), (0xfe20, 0xfe2f),
   (0xfe52, 0xfe52), (0xfe55, 0xfe55), (0xfeff, 0xfeff), (0xff07, 0xff07), (0xff0e, 0xff0e), (0xff1a, 0xff1a),
   (0xff3e, 0xff3e), (0xff40, 0xff40), (0xff70, 0xff70), (0xff9e, 0xff9f), (0xffe3, 0xffe3), (0xfff9, 0xfffb),
   (0x101fd, 0x101fd), (0x102e0, 0x102e0), (0x10376, 0x1037a), (0x10780, 0x10785), (0x10787, 0x107b0), (0x107b2, 0x107ba),
   (0x10a01, 0x10a03), (0x10a05, 0x10a06), (0x10a0c, 0x10a0f), (0x10a38, 0x10a3a), (0x10a3f, 0x10a3f), (0x10ae5, 0x10ae6),
   (0x10d24, 0x10d27), (0x10eab, 0x10eac), (0x10f46, 0x10f50), (0x10f82, 0x10f85), (0x11001, 0x11001), (0x11038, 0x11046),
   (0x11070, 0x11070), (0x11073, 0x11074), (0x1107f, 0x11081), (0x110b3, 0x110b6), (0x110b9, 0x110ba), (0x110bd, 0x110bd),
   (0x110c2, 0x110c2), (0x110cd, 0x110cd), (0x11100, 0x11102), (0x11127, 0x1112b), (0x1112d, 0x11134), (0x11173, 0x11173),
   (0x11180, 0x11181), (0x111b6, 0x111be), (0x111c9, 0x111cc), (0x111cf, 0x111cf), (0x1122f, 0x11231), (0x11234, 0x11234),
   (0x11236, 0x11237), (0x1123e, 0x1123e), (0x112df, 0x112df), (0x112e3, 0x112ea), (0x11300, 0x11301), (0x1133b, 0x1133c),
   (0x11340, 0x11340), (0x11366, 0x1136c), (0x11370, 0x11374), (0x11438, 0x1143f), (0x11442, 0x11444), (0x11446, 0x11446),
   (0x1145e, 0x1145e), (0x114b3, 0x114b8), (0x114ba, 0x114ba), (0x114bf, 0x114c0), (0x114c2, 0x114c3), (0x115b2, 0x115b5),
   (0x115bc, 0x115bd), (0x115bf, 0x115c0), (0x115dc, 0x115dd), (0x11633, 0x1163a), (0x1163d, 0x1163d), (0x1163f, 0x11640),
   (0x116ab, 0x116ab), (0x116ad, 0x116ad), (0x116b0, 0x116b5), (0x116b7, 0x116b7), (0x1171d, 0x1171f), (0x11722, 0x11725),
   (0x11727, 0x1172b), (0x1182f, 0x11837), (0x11839, 0x1183a), (0x1193b, 0x1193c), (0x1193e, 0x1193e), (0x11943, 0x11943),
   (0x119d4, 0x119d7), (0x119da, 0x119db), (0x119e0, 0x119e0), (0x11a01, 0x11a0a), (0x11a33, 0x11a38), (0x11a3b, 0x11a3e),
   (0x11a47, 0x11a47), (0x11a51, 0x11a56), (0x11a59, 0x11a5b), (0x11a8a, 0x11a96), (0x11a98, 0x11a99), (0x11c30, 0x11c36),
   (0x11c38, 0x11c3d), (0x11c3f, 0x11c3f), (0x11c92, 0x11ca7), (0x11caa, 0x11cb0), (0x11cb2, 0x11cb3), (0x11cb5, 0x11cb6),
   (0x11d31, 0x11d36), (0x11d3a, 0x11d3a), (0x11d3c, 0x11d3d), (0x11d3f, 0x11d45), (0x11d47, 0x11d47), (0x11d90, 0x11d91),
   (0x11d95, 0x11d95), (0x11d97, 0x11d97), (0x11ef3, 0x11ef4), (0x13430, 0x13438), (0x16af0, 0x16af4), (0x16b30, 0x16b36),
   (0x16b40, 0x16b43), (0x16f4f, 0x16f4f), (0x16f8f, 0x16f9f), (0x16fe0, 0x16fe1), (0x16fe3, 0x16fe4), (0x1aff0, 0x1aff3),
   (0x1aff5, 0x1affb), (0x1affd, 0x1affe), (0x1bc9d, 0x1bc9e), (0x1bca0, 0x1bca3), (0x1cf00, 0x1cf2d), (0x1cf30, 0x1cf46),
   (0x1d167, 0x1d169), (0x1d173, 0x1d182), (0x1d185, 0x1d18b), (0x1d1aa, 0x1d1ad), (0x1d242, 0x1d244), (0x1da00, 0x1da36),
   (0x1da3b, 0x1da6c), (0x1da75, 0x1da75), (0x1da84, 0x1da84), (0x1da9b, 0x1da9f), (0x1daa1, 0x1daaf), (0x1e000, 0x1e006),
   (0x1e008, 0x1e018), (0x1e01b, 0x1e021), (0x1e023, 0x1e024), (0x1e026, 0x1e02a), (0x1e130, 0x1e13d), (0x1e2ae, 0x1e2ae),
   (0x1e2ec, 0x1e2ef), (0x1e8d0, 0x1e8d6), (0x1e944, 0x1e94b), (0x1f3fb, 0x1f3ff), (0xe0001, 0xe0001), (0xe0020, 0xe007f),
   (0xe0100, 0xe01ef)]

/-- Association-list lookup for the lowercase table. -/
def lookupNat : List (Nat × List Nat) → Nat → Option (List Nat)
  | [], _ => none
  | (k, v) :: rest, key => if k = key then some v else lookupNat rest key

/-- Membership in a list of inclusive scalar-value ranges. -/
def inRanges : List (Nat × Nat) → Nat → Bool
  | [], _ => false
  | (lo, hi) :: rest, key => if lo ≤ key ∧ key ≤ hi then true else inRanges rest key

/-- Rust `char::to_lowercase`: the full (unconditional) Unicode lowercase
mapping; a character without a mapping lowers to itself. -/
def rustCharToLower (c : Char) : List Char :=
  match lookupNat LOWERCASE_TABLE c.toNat with
  | some l => l.map Char.ofNat
  | none => [c]

/-- The `Cased` derived property of a character. -/
def rustIsCased (c : Char) : Bool := inRanges CASED_RANGES c.toNat

/-- The `Case_Ignorable` derived property of a character. -/
def rustIsCaseIgnorable (c : Char) : Bool := inRanges CASE_IGNORABLE_RANGES c.toNat

/-- `case_ignorable_then_cased` from Rust `alloc/str.rs`: skip
`Case_Ignorable` characters, then test whether the first remaining character
is `Cased` (false when none remains). -/
def caseIgnorableThenCased (l : List Char) : Bool :=
  match l.dropWhile rustIsCaseIgnorable with
  | [] => false
  | c :: _ => rustIsCased c

/-- The character loop of Rust `str::to_lowercase`: every character maps
through `char::to_lowercase`, except a capital sigma, which lowers to the
final form `ς` exactly when the Final_Sigma condition holds.  `rbefore` is
the reversed prefix before the current character, as in the source's
`from[..i].chars().rev()`.  (The source's byte-wise ASCII fast path is
semantically transparent and not modelled separately.) -/
def rustToLowercaseGo (rbefore : List Char) : List Char → List Char
  | [] => []
  | c :: rest =>
    (if c = 'Σ' then
      (if caseIgnorableThenCased rbefore && !(caseIgnorableThenCased rest)
       then ['ς'] else ['σ'])
     else rustCharToLower c) ++ rustToLowercaseGo (c :: rbefore) rest

/-- Rust `str::to_lowercase`. -/
def rustToLowercase (l : List Char) : List Char := rustToLowercaseGo [] l

/-! ### Order lemmas for `lexLt` -/

theorem lexLt_cons_iff (x y : Char) (xs ys : List Char) :
    lexLt (x :: xs) (y :: ys) = true ↔ x < y ∨ (x = y ∧ lexLt xs ys = true) := by
  by_cases h : x < y <;> by_cases h2 : x = y <;> simp [lexLt, h, h2]

theorem lexLt_irrefl (l : List Char) : lexLt l l = false := by
  induction l with
  | nil => rfl
  | cons a as ih => simp [lexLt, ih]

theorem lexLt_trans {a b c : List Char} (h1 : lexLt a b = true) (h2 : lexLt b c = true) :
    lexLt a c = true := by
  induction a generalizing b c with
  | nil =>
    cases c with
    | nil => cases b with
      | nil => exact absurd h1 (by simp [lexLt])
      | cons y ys => exact absurd h2 (by simp [lexLt])
    | cons z zs => simp [lexLt]
  | cons x xs ih =>
    cases b with
    | nil => exact absurd h1 (by simp [lexLt])
    | cons y ys =>
      cases c with
      | nil => exact absurd h2 (by simp [lexLt])
      | cons z zs =>
        rw [lexLt_cons_iff] at h1 h2 ⊢
        rcases h1 with hxy | ⟨hxy, hrest1⟩
        · rcases h2 with hyz | ⟨hyz, _⟩
          · exact Or.inl (lt_trans hxy hyz)
          · exact Or.inl (hyz ▸ hxy)
        · rcases h2 with hyz | ⟨hyz, hrest2⟩
          · exact Or.inl (hxy ▸ hyz)
          · exact Or.inr ⟨hxy.trans hyz, ih hrest1 hrest2⟩

theorem lexLt_connex {a b : List Char} (h : a ≠ b) :
    lexLt a b = true ∨ lexLt b a = true := by
  induction a generalizing b with
  | nil =>
    cases b with
    | nil => exact absurd rfl h
    | cons y ys => exact Or.inl (by simp [lexLt])
  | cons x xs ih =>
    cases b with
    | nil => exact Or.inr (by simp [lexLt])
    | cons y ys =>
      rcases lt_trichotomy x y with hlt | heq | hgt
      · exact Or.inl ((lexLt_cons_iff ..).mpr (Or.inl hlt))
      · have hne : xs ≠ ys := by
          intro he; exact h (by rw [heq, he])
        rcases ih hne with h1 | h1
        · exact Or.inl ((lexLt_cons_iff ..).mpr (Or.inr ⟨heq, h1⟩))
        · exact Or.inr ((lexLt_cons_iff ..).mpr (Or.inr ⟨heq.symm, h1⟩))
      · exact Or.inr ((lexLt_cons_iff ..).mpr (Or.inl hgt))

theorem lexLt_asymm {a b : List Char} (h1 : lexLt a b = true) : lexLt b a = false := by
  by_contra hc
  have h2 : lexLt b a = true := by
    cases hx : lexLt b a with
    | false => exact absurd hx hc
    | true => rfl
  have := lexLt_trans h1 h2
  rw [lexLt_irrefl] at this
  exact Bool.false_ne_true this

theorem strLt_trans {a b c : String} (h1 : strLt a b = true) (h2 : strLt b c = true) :
    strLt a c = true := lexLt_trans h1 h2

theorem string_data_inj {a b : String} (h : a.data = b.data) : a = b := by
  cases a; cases b; exact congrArg String.mk h

theorem strCmp_eq_iff (a b : String) : strCmp a b = .eq ↔ a = b := by
  constructor
  · intro h
    unfold strCmp at h
    split at h
    · exact absurd h (by simp)
    · split at h
      · next he => exact string_data_inj he
      · exact absurd h (by simp)
  · intro h
    subst h
    unfold strCmp
    simp [strLt, lexLt_irrefl]

theorem strCmp_lt_iff (a b : String) : strCmp a b = .lt ↔ strLt a b = true := by
  unfold strCmp
  split
  · next h => simp [h]
  · next h =>
    split <;> simp [Bool.not_eq_true] at h ⊢ <;> simp [h]

theorem strCmp_gt_iff (a b : String) : strCmp a b = .gt ↔ strLt b a = true := by
  unfold strCmp
  split
  · next h =>
    constructor
    · intro hc; exact absurd hc (by simp)
    · intro hba
      have := lexLt_asymm (a := a.data) (b := b.data) h
      rw [strLt] at hba
      rw [this] at hba
      exact absurd hba (by simp)
  · next h =>
    split
    · next he =>
      constructor
      · intro hc; exact absurd hc (by simp)
      · intro hba
        rw [strLt, he, lexLt_irrefl] at hba
        exact absurd hba (by simp)
    · next he =>
      have hne : b.data ≠ a.data := fun hx => he hx.symm
      rcases lexLt_connex hne with h1 | h1
      · simp [strLt, h1]
      · exact absurd h1 (by simp [Bool.not_eq_true, strLt] at h; simp [h])

/-! ### Rust `slice::binary_search_by` -/

/-- Fuel-based embedding of the loop of Rust `slice::binary_search_by`.
The comparator `f i` is `cmp(&self[i])` from the source; `Sum.inl` is `Ok`,
`Sum.inr` is `Err`.  The fuel only bounds the iteration count; `right - left`
strictly decreases every round, so fuel `l.length` is always enough. -/
def binSearchGo (f : Nat → Ordering) : Nat → Nat → Nat → Nat ⊕ Nat
  | 0, left, _right => Sum.inr left
  | fuel + 1, left, right =>
    if left < right then
      let mid := left + (right - left) / 2
      match f mid with
      | Ordering.lt => binSearchGo f fuel (mid + 1) right
      | Ordering.eq => Sum.inl mid
      | Ordering.gt => binSearchGo f fuel left mid
    else Sum.inr left

/-- `subkeys.binary_search_by(|s| s.cmp(&name))` from the source. -/
def rustBinarySearchBy (l : List String) (target : String) : Nat ⊕ Nat :=
  binSearchGo (fun i => strCmp (l.getD i "") target) l.length 0 l.length

/-- The sortedness invariant the controller maintains on child-name lists. -/
def SortedKeys (l : List String) : Prop := List.Pairwise (fun a b => strLt a b = true) l

instance sortedKeysDec (l : List String) : Decidable (SortedKeys l) := by
  unfold SortedKeys; infer_instance

theorem sortedKeys_getD_lt {l : List String} (hs : SortedKeys l) {i j : Nat}
    (hij : i < j) (hj : j < l.length) :
    strLt (l.getD i "") (l.getD j "") = true := by
  have hi : i < l.length := lt_trans hij hj
  rw [l.getD_eq_getElem "" hi, l.getD_eq_getElem "" hj]
  exact List.pairwise_iff_getElem.mp hs i j hi hj hij

theorem binSearchGo_spec (l : List String) (t : String) (hs : SortedKeys l) :
    ∀ (fuel left right : Nat), left ≤ right → right ≤ l.length →
    right - left ≤ fuel →
    (∀ i, i < left → strLt (l.getD i "") t = true) →
    (∀ i, right ≤ i → i < l.length → strLt t (l.getD i "") = true) →
    (match binSearchGo (fun i => strCmp (l.getD i "") t) fuel left right with
     | Sum.inl m => m < l.length ∧ l.getD m "" = t
     | Sum.inr j => j ≤ l.length ∧ (∀ i, i < j → strLt (l.getD i "") t = true)
         ∧ (∀ i, j ≤ i → i < l.length → strLt t (l.getD i "") = true)) := by
  intro fuel
  induction fuel with
  | zero =>
    intro left right hlr hrl hfuel hlo hhi
    have : right = left := by omega
    subst this
    simp only [binSearchGo]
    exact ⟨hrl, hlo, hhi⟩
  | succ n ih =>
    intro left right hlr hrl hfuel hlo hhi
    by_cases hlt : left < right
    · have hmidlt : (right - left) / 2 < right - left := Nat.div_lt_self (by omega) (by omega)
      have hmid : left + (right - left) / 2 < right := by omega
      have hmidlen : left + (right - left) / 2 < l.length := lt_of_lt_of_le hmid hrl
      simp only [binSearchGo, if_pos hlt]
      cases hcmp : strCmp (l.getD (left + (right - left) / 2) "") t with
      | lt =>
        have hmt : strLt (l.getD (left + (right - left) / 2) "") t = true :=
          (strCmp_lt_iff ..).mp hcmp
        have hlo' : ∀ i, i < left + (right - left) / 2 + 1 → strLt (l.getD i "") t = true := by
          intro i hi
          by_cases hil : i < left
          · exact hlo i hil
          · by_cases hieq : i = left + (right - left) / 2
            · exact hieq ▸ hmt
            · have : i < left + (right - left) / 2 := by omega
              exact strLt_trans (sortedKeys_getD_lt hs this hmidlen) hmt
        exact ih (left + (right - left) / 2 + 1) right (by omega) hrl (by omega) hlo' hhi
      | eq =>
        exact ⟨hmidlen, (strCmp_eq_iff ..).mp hcmp⟩
      | gt =>
        have hmt : strLt t (l.getD (left + (right - left) / 2) "") = true :=
          (strCmp_gt_iff ..).mp hcmp
        have hhi' : ∀ i, left + (right - left) / 2 ≤ i → i < l.length →
            strLt t (l.getD i "") = true := by
          intro i hi hilen
          by_cases hieq : i = left + (right - left) / 2
          · exact hieq ▸ hmt
          · have : left + (right - left) / 2 < i := by omega
            exact strLt_trans hmt (sortedKeys_getD_lt hs this hilen)
        exact ih left (left + (right - left) / 2) (by omega) (le_of_lt hmidlen) (by omega) hlo hhi'
    · have : right = left := by omega
      subst this
      simp only [binSearchGo, if_neg hlt]
      exact ⟨hrl, hlo, hhi⟩

/-- Top-level correctness of the embedded binary search on a sorted list. -/
theorem rustBinarySearchBy_spec (l : List String) (t : String) (hs : SortedKeys l) :
    (match rustBinarySearchBy l t with
     | Sum.inl m => m < l.length ∧ l.getD m "" = t
     | Sum.inr j => j ≤ l.length ∧ (∀ i, i < j → strLt (l.getD i "") t = true)
         ∧ (∀ i, j ≤ i → i < l.length → strLt t (l.getD i "") = true)) := by
  have := binSearchGo_spec l t hs l.length 0 l.length (Nat.zero_le _) le_rfl
    (by omega) (by intro i hi; omega) (by intro i hi hlen; omega)
  exact this

/-! ### External store adapter (`windows_registry`, src/registry.rs) -/

/-- Abstract handle to an opened registry node (`windows_registry::Key`). -/
abbrev Handle := Nat

/-- A store error reduced to its human-readable message (`err.message()`). -/
abbrev StoreErr := String

/-- Model of `windows_registry::Type`. -/
inductive RegType where
  | bytes
  | string
  | expandString
  | multiString
  | u32
  | u64
  | other (n : Nat)
deriving DecidableEq, Repr

/-- Model of `windows_registry::Value`: an opaque byte payload with a type tag;
the controller never inspects it. -/
structure RegValue where
  ty : RegType
  raw : List Nat
deriving DecidableEq, Repr

/-- The external store, as the pure fallible interface the controller consumes
(`registry.rs` wraps these one-to-one: `read_subkeys`, `read_key`, `open("")`,
`read_values`, `new_key`, `rename_key`, `delete_key`). -/
structure StoreModel where
  subkeysOf : Handle → Except StoreErr (List String)
  openChild : Handle → String → Except StoreErr Handle
  openSelf : Handle → Except StoreErr Handle
  valuesOf : Handle → Except StoreErr (List (String × RegValue))
  createChild : Handle → String → Except StoreErr Unit
  renameChild : Handle → String → String → Except StoreErr Unit
  deleteChildTree : Handle → String → Except StoreErr Unit

/-- `registry::DEFAULT_KEYS`: the five static root keys, modelled as handles
`0`–`4` paired with their display names. -/
def DEFAULT_KEYS : List (Handle × String) :=
  [(0, "HKEY_CLASSES_ROOT"),
   (1, "HKEY_CURRENT_USER"),
   (2, "HKEY_LOCAL_MACHINE"),
   (3, "HKEY_USERS"),
   (4, "HKEY_CURRENT_CONFIG")]

/-- `registry::TYPE_STRINGS`. -/
def TYPE_STRINGS : List String :=
  ["REG_BINARY", "REG_SZ", "REG_EXPAND_SZ", "REG_MULTI_SZ",
   "REG_DWORD", "REG_QWORD", "REG_NONE"]

/-- `registry::get_type_choices_vec`: all type strings except the last
(`REG_NONE`). -/
def getTypeChoicesVec : List String := TYPE_STRINGS.dropLast

/-- `registry::str_to_type`. -/
def strToType (s : String) : RegType :=
  if strEqb s "REG_BINARY" then .bytes
  else if strEqb s "REG_SZ" then .string
  else if strEqb s "REG_EXPAND_SZ" then .expandString
  else if strEqb s "REG_MULTI_SZ" then .multiString
  else if strEqb s "REG_DWORD" then .u32
  else if strEqb s "REG_QWORD" then .u64
  else if strEqb s "REG_NONE" then .other 0
  else .other 0

/-! ### Controller data model (src/context.rs) -/

/-- `InputChoices`; `new` carries the source's `assert!(items.len() > 0)` as
`Option.none` (panic) on an empty list. -/
structure InputChoices where
  items : List String
  selected : Nat
deriving DecidableEq, Repr

def InputChoices.new (items : List String) : Option InputChoices :=
  if 0 < items.length then some { items := items, selected := 0 } else none

/-- `InputType`. -/
inductive InputType where
  | textArea
  | choice (c : InputChoices)
deriving DecidableEq, Repr

def InputType.isTextArea : InputType → Bool
  | .textArea => true
  | _ => false

def InputType.isChoice (t : InputType) : Bool := !t.isTextArea

/-- `AppMessageType`. -/
inductive AppMessageType where
  | info
  | error
deriving DecidableEq, Repr

/-- `AppMessage`. -/
structure AppMessage where
  ty : AppMessageType
  message : String
deriving DecidableEq, Repr

def AppMessage.info (message : String) : AppMessage := { ty := .info, message := message }

def AppMessage.error (message : String) : AppMessage := { ty := .error, message := message }

/-- `NamedValue`. -/
structure NamedValue where
  name : String
  value : RegValue
deriving DecidableEq, Repr

def NamedValue.new (name : String) (value : RegValue) : NamedValue :=
  { name := name, value := value }

/-- The source's validator closures, defunctionalized: each constructor is one
closure creation site with its captured data; `applyValidate` holds the bodies. -/
inductive ValidateFnD where
  | keyNameValidate (subkeys : List String) (exclude_keys : List String)
  | renameKeyValidate (subkeys : List String) (exclude : List String)
  | valueNameValidate (values : List NamedValue) (exclude_values : List NamedValue)
  | stageDataValidate
deriving DecidableEq, Repr

/-- The source's confirmation closures, defunctionalized: each constructor is
one closure creation site with its captured data; `applyConfirm` holds the
bodies. -/
inductive ConfirmFnD where
  | newKeyConfirm (key : Handle)
  | renameKeyConfirm (key : Handle) (current_name : String)
  | deleteKeyConfirm (key : Handle) (current_name : String)
  | newValueConfirm
  | stageTypeConfirm (name : String)
  | stageDataConfirm (name : String) (ty : RegType)
deriving DecidableEq, Repr

/-- `InputState`.  The `tui_textarea::TextArea` widget is modelled by its text
content (`self.text()` joins its lines); placeholder text is presentation-only
and omitted. -/
structure InputState where
  label : String
  textarea : String
  validate_fn : Option ValidateFnD
  confirm_fn : Option ConfirmFnD
  ty : InputType
deriving DecidableEq, Repr

def InputState.new : InputState :=
  { label := "No Input Required", textarea := "", validate_fn := none,
    confirm_fn := none, ty := .textArea }

def InputState.text (s : InputState) : String := s.textarea

/-- `ActionAddSubkey`. -/
structure ActionAddSubkey where
  name : String
deriving DecidableEq, Repr

/-- `ActionRenameSubkey`. -/
structure ActionRenameSubkey where
  original : String
  new : String
deriving DecidableEq, Repr

/-- `ActionDeleteSubkey`. -/
structure ActionDeleteSubkey where
  name : String
deriving DecidableEq, Repr

/-- `StageNewValueType`. -/
structure StageNewValueType where
  name : String
deriving DecidableEq, Repr

/-- `StageNewValueData`. -/
structure StageNewValueData where
  name : String
  ty : RegType
deriving DecidableEq, Repr

/-- `InputStageType`. -/
inductive InputStageType where
  | newValueType (s : StageNewValueType)
  | newValueData (s : StageNewValueData)
deriving DecidableEq, Repr

/-- `ActionStage`. -/
structure ActionStage where
  ty : InputStageType
deriving DecidableEq, Repr

/-- `PostAction` (`noAction` is the source's `PostAction::None`). -/
inductive PostAction where
  | addSubkey (a : ActionAddSubkey)
  | renameSubkey (a : ActionRenameSubkey)
  | deleteSubkey (a : ActionDeleteSubkey)
  | stage (a : ActionStage)
  | noAction
deriving DecidableEq, Repr

/-- The constructor of the `PostAction` a confirmation produced; ghost
instrumentation for the staged-command claims. -/
inductive ActionTag where
  | addSubkey
  | renameSubkey
  | deleteSubkey
  | stage
  | noAction
deriving DecidableEq, Repr

def tagOf : PostAction → ActionTag
  | .addSubkey _ => .addSubkey
  | .renameSubkey _ => .renameSubkey
  | .deleteSubkey _ => .deleteSubkey
  | .stage _ => .stage
  | .noAction => .noAction

/-- `ratatui::TableState`, reduced to its selection. -/
structure TableState where
  selected : Option Nat
deriving DecidableEq, Repr

/-- `ratatui::ScrollbarState`, reduced to content length and position. -/
structure ScrollbarSt where
  contentLen : Nat
  position : Nat
deriving DecidableEq, Repr

/-- `app::ITEM_HEIGHT`. -/
def ITEM_HEIGHT : Nat := 1

/-- `ScrollableTableState`. -/
structure ScrollableTableState where
  state : TableState
  scroll : ScrollbarSt
  content_length : Nat
deriving DecidableEq, Repr

def ScrollableTableState.new (content_length : Nat) : ScrollableTableState :=
  { state := { selected := some 0 },
    scroll := { contentLen := content_length, position := 0 },
    content_length := content_length }

def ScrollableTableState.resize (s : ScrollableTableState) (content_length : Nat) :
    ScrollableTableState :=
  { state := { selected := some 0 },
    scroll := { s.scroll with contentLen := content_length },
    content_length := content_length }

/-- `KeyViewState`. -/
inductive KeyViewState where
  | base
  | subkey
deriving DecidableEq, Repr

/-- `LastSelected` (`noneSel` is the source's `LastSelected::None`). -/
inductive LastSelected where
  | keys
  | values
  | noneSel
deriving DecidableEq, Repr

/-- `ViewState`. -/
inductive ViewState where
  | keys
  | values
  | input (last : LastSelected)
  | message (last : LastSelected)
deriving DecidableEq, Repr

/-- `From<ViewState> for LastSelected`; `unreachable!()` on Input/Message is
`Option.none`. -/
def viewToLast : ViewState → Option LastSelected
  | .keys => some .keys
  | .values => some .values
  | _ => none

/-- `From<LastSelected> for ViewState`; `unreachable!()` on `None` is
`Option.none`. -/
def lastToView : LastSelected → Option ViewState
  | .keys => some .keys
  | .values => some .values
  | .noneSel => none

def ViewState.isInput : ViewState → Bool
  | .input _ => true
  | _ => false

def ViewState.isMessage : ViewState → Bool
  | .message _ => true
  | _ => false

/-- `KeyState`: one navigation-stack frame.  The `HashMap<String, Vec<NamedValue>>`
values cache is modelled as an association list (`lookupA` below is its lookup). -/
structure KeyState where
  key : Handle
  subkeys : List String
  cached_path : String
  cached_values : List (String × List NamedValue)
deriving DecidableEq, Repr

/-- `KeyState::new`: the breadcrumb is computed once at push time,
`format!("{last_path} -> {name}")`. -/
def KeyState.new (key : Handle) (name : String) (subkeys : List String)
    (last_path : String) : KeyState :=
  { key := key, subkeys := subkeys, cached_path := last_path ++ " -> " ++ name,
    cached_values := [] }

/-- Lookup in the values-cache association list (HashMap get; Rust `String`
equality is byte equality). -/
def lookupA : List (String × List NamedValue) → String → Option (List NamedValue)
  | [], _ => none
  | (k, v) :: rest, key => if k.data = key.data then some v else lookupA rest key

/-- `AppContext`.  `key_states` keeps the top frame at the HEAD of the list
(the Rust `Vec` keeps it at the back: `push`/`pop`/`last` become
`cons`/`tail`/`head?`). -/
structure AppContext where
  key_table : ScrollableTableState
  value_table : ScrollableTableState
  input : InputState
  message : Option AppMessage
  view_state : ViewState
  base_subkeys : List String
  base_path : String
  key_states : List KeyState
deriving DecidableEq, Repr

/-- `AppContext::new`. -/
def AppContext.new : AppContext :=
  let base_subkeys := DEFAULT_KEYS.map (·.2)
  { key_table := ScrollableTableState.new (base_subkeys.length * ITEM_HEIGHT)
    value_table := ScrollableTableState.new (100 * ITEM_HEIGHT)
    input := InputState.new
    message := none
    view_state := .keys
    base_subkeys := base_subkeys
    base_path := "Computer"
    key_states := [] }

/-- `Vec::insert(index, value)` (index ≤ len is guaranteed at the call site by
`binary_search`'s `Err` bound). -/
def vecInsert (l : List String) (index : Nat) (a : String) : List String :=
  l.take index ++ a :: l.drop index

/-! ### Controller operations (src/context.rs) -/

/-- `AppContext::get_key_view_state`. -/
def getKeyViewState (ctx : AppContext) : KeyViewState :=
  match ctx.key_states with
  | [] => .base
  | _ :: _ => .subkey

/-- `AppContext::get_subkeys` (the `Subkey` arm's `last().unwrap()` cannot fail:
that arm is taken exactly when the stack is non-empty). -/
def getSubkeys (ctx : AppContext) : List String :=
  match ctx.key_states with
  | [] => ctx.base_subkeys
  | s :: _ => s.subkeys

/-- `AppContext::get_path`. -/
def getPath (ctx : AppContext) : String :=
  match ctx.key_states with
  | [] => ctx.base_path
  | s :: _ => s.cached_path

/-- `AppContext::get_table_by_view` (read half of the `&mut` accessor). -/
def getTableByView (ctx : AppContext) : ViewState → Option ScrollableTableState
  | .keys => some ctx.key_table
  | .values => some ctx.value_table
  | _ => none

/-- Write half of `AppContext::get_table_by_view`. -/
def setTableByView (ctx : AppContext) (v : ViewState) (t : ScrollableTableState) :
    AppContext :=
  match v with
  | .keys => { ctx with key_table := t }
  | .values => { ctx with value_table := t }
  | _ => ctx

/-- `AppContext::swap_viewing_table`. -/
def swapViewingTable (ctx : AppContext) : AppContext :=
  match ctx.view_state with
  | .keys => { ctx with view_state := .values }
  | .values => { ctx with view_state := .keys }
  | _ => ctx

/-- `AppContext::update_values`.  The second component counts invocations of
the store's value listing (`registry::read_values`) — ghost instrumentation
for the memoization claim.  `Option.none` models the panic of the indexing
`self.get_subkeys()[i]` when the selection is out of bounds. -/
def updateValues (st : StoreModel) (ctx : AppContext) : Option (AppContext × Nat) :=
  match ctx.key_table.state.selected with
  | none => some (ctx, 0)
  | some i =>
    if i < (getSubkeys ctx).length then
      let key_name := (getSubkeys ctx).getD i ""
      match ctx.key_states with
      | [] => some (ctx, 0)
      | key_state :: rest =>
        match lookupA key_state.cached_values key_name with
        | some entry =>
          some ({ ctx with
                  value_table := ctx.value_table.resize (entry.length * ITEM_HEIGHT) }, 0)
        | none =>
          let fetched : List NamedValue × Nat :=
            match st.openChild key_state.key key_name with
            | .error _ => ([], 0)
            | .ok key =>
              match st.valuesOf key with
              | .ok values => (values.map (fun p => NamedValue.new p.1 p.2), 1)
              | .error _ => ([], 1)
          let key_state' := { key_state with
                              cached_values := (key_name, fetched.1) :: key_state.cached_values }
          some ({ ctx with
                  key_states := key_state' :: rest,
                  value_table := ctx.value_table.resize (fetched.1.length * ITEM_HEIGHT) },
                fetched.2)
    else none

/-- `AppContext::select_row_in`. -/
def selectRowIn (st : StoreModel) (ctx : AppContext) (view : ViewState) (i : Nat) :
    Option AppContext :=
  match getTableByView ctx view with
  | none => some ctx
  | some table =>
    let table' := { table with
                    state := { selected := some i },
                    scroll := { table.scroll with position := i * ITEM_HEIGHT } }
    let ctx' := setTableByView ctx view table'
    if ctx'.view_state = ViewState.keys then (updateValues st ctx').map (·.1)
    else some ctx'

/-- `AppContext::create_subkeys`: `read_subkeys(key).unwrap()` then prefix the
synthetic `".."` go-up entry.  Note the source applies NO sort here. -/
def createSubkeys (st : StoreModel) (key : Handle) : Option (List String) :=
  match st.subkeysOf key with
  | .error _ => none
  | .ok subkeys => some (".." :: subkeys)

/-- `AppContext::select_base`. -/
def selectBase (st : StoreModel) (ctx : AppContext) (index : Nat) : Option AppContext :=
  if index < ctx.base_subkeys.length then
    let path := ctx.base_subkeys.getD index ""
    match DEFAULT_KEYS.find? (fun p => strEqb p.2 path) with
    | none => none
    | some (key, name) =>
      match createSubkeys st key with
      | none => none
      | some subkeys =>
        match st.openSelf key with
        | .error _ => none
        | .ok key2 =>
          some { ctx with
                 key_states := KeyState.new key2 name subkeys ctx.base_path :: ctx.key_states }
  else none

/-- `AppContext::select_key`. -/
def selectKey (st : StoreModel) (ctx : AppContext) (index : Nat) : Option AppContext :=
  match index with
  | 0 => some { ctx with key_states := ctx.key_states.tail }
  | _ =>
    if index < (getSubkeys ctx).length then
      let path := (getSubkeys ctx).getD index ""
      match ctx.key_states with
      | [] => none
      | current :: _ =>
        match st.openChild current.key path with
        | .error _ => none
        | .ok key =>
          match createSubkeys st key with
          | none => none
          | some subkeys =>
            some { ctx with
                   key_states := KeyState.new key path subkeys current.cached_path
                     :: ctx.key_states }
    else none

/-- `AppContext::select`. -/
def select (st : StoreModel) (ctx : AppContext) : Option AppContext :=
  match ctx.key_table.state.selected with
  | none => some ctx
  | some i =>
    (match getKeyViewState ctx with
     | KeyViewState.base => selectBase st ctx i
     | KeyViewState.subkey => selectKey st ctx i).map
      (fun (c : AppContext) =>
        { c with key_table := c.key_table.resize ((getSubkeys c).length * ITEM_HEIGHT) })

/-- `AppContext::set_input_state`. -/
def setInputState (ctx : AppContext) (ty : InputType) (validate_fn : Option ValidateFnD)
    (confirm_fn : Option ConfirmFnD) : Option AppContext :=
  match (match ctx.view_state with
         | ViewState.input ls => some (ViewState.input ls)
         | v => (viewToLast v).map ViewState.input) with
  | none => none
  | some vs' =>
    let inp := { ctx.input with ty := ty, validate_fn := validate_fn, confirm_fn := confirm_fn }
    some { ctx with view_state := vs', input := inp }

/-- `AppContext::set_textarea_input` (select-all + cut clears the text buffer;
the placeholder text is presentation-only). -/
def setTextareaInput (ctx : AppContext) (validate : ValidateFnD) (confirm : ConfirmFnD) :
    Option AppContext :=
  match setInputState ctx .textArea (some validate) (some confirm) with
  | none => none
  | some c => some { c with input := { c.input with textarea := "" } }

/-- `AppContext::set_choice_input`. -/
def setChoiceInput (ctx : AppContext) (choices : List String) (confirm : ConfirmFnD) :
    Option AppContext :=
  match InputChoices.new choices with
  | none => none
  | some ch => setInputState ctx (.choice ch) none (some confirm)

/-- `AppContext::next_input_choice`.  (`len` is positive in every constructed
session — `InputChoices::new` asserts it — so the Rust `%` cannot divide by
zero; `Nat` mod totalizes it.) -/
def nextInputChoice (ctx : AppContext) : AppContext :=
  match ctx.input.ty with
  | .choice ch =>
    let len := ch.items.length
    { ctx with
      input := { ctx.input with ty := .choice { ch with selected := (ch.selected + 1) % len } } }
  | _ => ctx

/-- `AppContext::prev_input_choice`. -/
def prevInputChoice (ctx : AppContext) : AppContext :=
  match ctx.input.ty with
  | .choice ch =>
    let len := ch.items.length
    { ctx with
      input := { ctx.input with
                 ty := .choice { ch with selected := (ch.selected + len - 1) % len } } }
  | _ => ctx

/-- `AppContext::reset_input`. -/
def resetInput (ctx : AppContext) : Option AppContext :=
  match (match ctx.view_state with
         | ViewState.input ls => lastToView ls
         | v => some v) with
  | none => none
  | some vs' =>
    let inp := { ctx.input with validate_fn := none, confirm_fn := none }
    let inp := if inp.ty.isTextArea then { inp with textarea := "" } else inp
    some { ctx with view_state := vs', input := { inp with label := "No Input Required" } }

/-- `AppContext::set_message_with_state`. -/
def setMessageWithState (ctx : AppContext) (message : AppMessage)
    (last_selected : LastSelected) : AppContext :=
  { ctx with view_state := ViewState.message last_selected, message := some message }

/-- `AppContext::set_message` (`self.view_state.into()` panics from
Input/Message view states). -/
def setMessage (ctx : AppContext) (message : AppMessage) : Option AppContext :=
  (viewToLast ctx.view_state).map (setMessageWithState ctx message)

/-- `AppContext::cancel_message`. -/
def cancelMessage (ctx : AppContext) : Option AppContext :=
  match (match ctx.view_state with
         | ViewState.message ls => lastToView ls
         | v => some v) with
  | none => none
  | some vs' => some { ctx with view_state := vs', message := none }

/-- `AppContext::key_name_validator`. -/
def keyNameValidator (input : String) (subkeys : List String)
    (exclude_keys : List String) : Except String Unit :=
  if (rustTrim input.data).isEmpty then .error "Can't be empty"
  else if decide ('/' ∈ input.data) then
    .error "Name of a key can't contain forward slashes"
  else if utf8Len input.data > 255 then
    .error "Name of a key can't be longer than 255 characters"
  else
    if (subkeys.find? (fun a => decide (rustToLowercase a.data = rustToLowercase input.data))).isSome
        && !(exclude_keys.any (fun a => decide (rustToLowercase a.data = rustToLowercase input.data))) then
      .error "This key already exists"
    else .ok ()

/-- `AppContext::value_name_validator`. -/
def valueNameValidator (input : String) (values : List NamedValue)
    (exclude_values : List NamedValue) : Except String Unit :=
  if (rustTrim input.data).isEmpty then .error "Can't be empty"
  else if decide ('/' ∈ input.data) then
    .error "Name of a value can't contain forward slashes"
  else if utf8Len input.data > 16383 then
    .error "Name of a value can't be longer than 16,383 characters"
  else
    if (values.find? (fun a => decide (rustToLowercase a.name.data = rustToLowercase input.data))).isSome
        && !(exclude_values.any (fun a => decide (rustToLowercase a.name.data = rustToLowercase input.data))) then
      .error "This value already exists"
    else .ok ()

/-- Bodies of the validator closures (see `ValidateFnD`).  The
`renameKeyValidate` arm is the closure inside `rename_key`: a self-name check
followed by `key_name_validator`. -/
def applyValidate : ValidateFnD → String → Except String Unit
  | .keyNameValidate subs ex, input => keyNameValidator input subs ex
  | .renameKeyValidate subs ex, input =>
    if strEqb input (ex.getD 0 "") then .error "The name of the key must be new"
    else keyNameValidator input subs ex
  | .valueNameValidate vals ex, input => valueNameValidator input vals ex
  | .stageDataValidate, _ => .ok ()

/-- `InputState::validate`. -/
def InputState.validate (s : InputState) : Option (Except String Unit) :=
  s.validate_fn.map (fun v => applyValidate v s.text)

/-- `self.input.validate().is_some_and(|res| res.is_err())` from
`confirm_input`. -/
def validationFailed (s : InputState) : Bool :=
  match s.validate with
  | some (.error _) => true
  | _ => false

/-- Bodies of the confirmation closures (see `ConfirmFnD`), one arm per
closure creation site in `new_key`, `rename_key`, `delete_key`, `new_value`,
`input_stage_new_value_type` and `input_stage_new_value_data`. -/
def applyConfirm (st : StoreModel) : ConfirmFnD → String → Option AppMessage × PostAction
  | .newKeyConfirm key, input =>
    match st.createChild key input with
    | .ok _ =>
      (some (AppMessage.info "New key successfully created."),
       .addSubkey { name := input })
    | .error e =>
      (some (AppMessage.error ("Error when creating a new key: " ++ e)), .noAction)
  | .renameKeyConfirm key current_name, input =>
    match st.renameChild key current_name input with
    | .ok _ =>
      (some (AppMessage.info "The key has been successfully renamed."),
       .renameSubkey { original := current_name, new := input })
    | .error e =>
      (some (AppMessage.error ("Error when renaming the key: " ++ e)), .noAction)
  | .deleteKeyConfirm key current_name, text =>
    if strEqb text "No" then (none, .noAction)
    else
      match st.deleteChildTree key current_name with
      | .ok _ =>
        (some (AppMessage.info "The key has been successfully deleted."),
         .deleteSubkey { name := current_name })
      | .error e =>
        (some (AppMessage.error ("Error when deleting the key: " ++ e)), .noAction)
  | .newValueConfirm, input =>
    (none, .stage { ty := .newValueType { name := input } })
  | .stageTypeConfirm name, input =>
    (none, .stage { ty := .newValueData { name := name, ty := strToType input } })
  | .stageDataConfirm _ _, _ => (none, .noAction)

/-- `AppContext::post_action_add_subkey`: binary-search for the insertion
point (`Ok` hits the `unreachable!()`), insert, resize the Children selection,
select the inserted row. -/
def postActionAddSubkey (st : StoreModel) (action : ActionAddSubkey) (ctx : AppContext) :
    Option AppContext :=
  match ctx.key_states with
  | [] => none
  | last :: rest =>
    match rustBinarySearchBy last.subkeys action.name with
    | .inl _ => none
    | .inr index =>
      let last' := { last with subkeys := vecInsert last.subkeys index action.name }
      let c := { ctx with key_states := last' :: rest }
      let c := { c with key_table := c.key_table.resize (last'.subkeys.length * ITEM_HEIGHT) }
      selectRowIn st c ViewState.keys index

/-- `AppContext::post_action_rename_subkey`: replace in place (no re-sort). -/
def postActionRenameSubkey (action : ActionRenameSubkey) (ctx : AppContext) :
    Option AppContext :=
  match ctx.key_states with
  | [] => none
  | last :: rest =>
    match last.subkeys.findIdx? (fun a => strEqb a action.original) with
    | none => none
    | some subkey_index =>
      some { ctx with
             key_states := { last with subkeys := last.subkeys.set subkey_index action.new }
               :: rest }

/-- `AppContext::post_action_delete_subkey`: binary-search for the entry
(`Err` hits the `unreachable!()`), remove it, resize, then select
`index - 1`.  The subtraction is Rust `usize` arithmetic: at `index == 0` it
underflows (panic in debug builds), modelled as `Option.none`. -/
def postActionDeleteSubkey (st : StoreModel) (action : ActionDeleteSubkey)
    (ctx : AppContext) : Option AppContext :=
  match ctx.key_states with
  | [] => none
  | last :: rest =>
    match rustBinarySearchBy last.subkeys action.name with
    | .inr _ => none
    | .inl index =>
      let last' := { last with subkeys := last.subkeys.eraseIdx index }
      let c := { ctx with key_states := last' :: rest }
      let c := { c with key_table := c.key_table.resize (last'.subkeys.length * ITEM_HEIGHT) }
      if index = 0 then none
      else selectRowIn st c ViewState.keys (index - 1)

/-- `AppContext::input_stage_new_value_type`. -/
def inputStageNewValueType (ctx : AppContext) (stage : StageNewValueType) :
    Option AppContext :=
  let c := { ctx with input := { ctx.input with label := "Choose Type:" } }
  setChoiceInput c getTypeChoicesVec (ConfirmFnD.stageTypeConfirm stage.name)

/-- `AppContext::input_stage_new_value_data`. -/
def inputStageNewValueData (ctx : AppContext) (stage : StageNewValueData) :
    Option AppContext :=
  let c := { ctx with input := { ctx.input with label := "Enter Value:" } }
  setTextareaInput c ValidateFnD.stageDataValidate
    (ConfirmFnD.stageDataConfirm stage.name stage.ty)

/-- `AppContext::post_action_stage`. -/
def postActionStage (ctx : AppContext) (action : ActionStage) : Option AppContext :=
  match action.ty with
  | .newValueType stage => inputStageNewValueType ctx stage
  | .newValueData stage => inputStageNewValueData ctx stage

/-- `AppContext::confirm_input`.  The source's `should_reset_input` flag is
inlined per `PostAction` branch (only `Stage` leaves it `false`).  The second
component reports which `PostAction` the continuation returned (`none` when the
guard returned early or no continuation was installed) — ghost instrumentation
for the staged-command claims. -/
def confirmInput (st : StoreModel) (ctx : AppContext) :
    Option (AppContext × Option ActionTag) :=
  if validationFailed ctx.input then
    some (ctx, none)
  else
    match (match ctx.input.ty with
           | .textArea => some ctx.input.text
           | .choice ch => ch.items.get? ch.selected) with
    | none => none
    | some text =>
      match ctx.input.confirm_fn with
      | none =>
        (resetInput ctx).map (fun c => (c, none))
      | some confirm_fn =>
        let pair := applyConfirm st confirm_fn text
        let last_selected := match ctx.view_state with
          | ViewState.input ls => ls
          | _ => LastSelected.noneSel
        let c := match pair.1 with
          | some m => setMessageWithState ctx m last_selected
          | none => ctx
        match pair.2 with
        | .addSubkey a =>
          match postActionAddSubkey st a c with
          | none => none
          | some c => (resetInput c).map (fun c => (c, some ActionTag.addSubkey))
        | .renameSubkey a =>
          match postActionRenameSubkey a c with
          | none => none
          | some c => (resetInput c).map (fun c => (c, some ActionTag.renameSubkey))
        | .deleteSubkey a =>
          match postActionDeleteSubkey st a c with
          | none => none
          | some c => (resetInput c).map (fun c => (c, some ActionTag.deleteSubkey))
        | .stage a =>
          (postActionStage c a).map (fun c => (c, some ActionTag.stage))
        | .noAction =>
          (resetInput c).map (fun c => (c, some ActionTag.noAction))

/-- `AppContext::get_selected_subkey`. -/
def getSelectedSubkey (ctx : AppContext) : Option (KeyState × String) :=
  match ctx.key_table.state.selected with
  | none => none
  | some selected =>
    match ctx.key_states with
    | [] => none
    | state :: _ =>
      match state.subkeys.get? selected with
      | none => none
      | some subkey => some (state, subkey)

/-- `AppContext::new_key` (`registry::clone_key` is `open("").expect(..)`). -/
def newKey (st : StoreModel) (ctx : AppContext) : Option AppContext :=
  match ctx.key_states.head? with
  | none => setMessage ctx (AppMessage.error "Can't create a key here.")
  | some s =>
    match st.openSelf s.key with
    | .error _ => none
    | .ok key =>
      let c := { ctx with input := { ctx.input with label := "Enter Name:" } }
      setTextareaInput c (.keyNameValidate s.subkeys []) (.newKeyConfirm key)

/-- `AppContext::new_value`.  `Option.none` on the cache-miss arm is the
source's `unreachable!()` panic: the selected child's values were assumed to be
cached already. -/
def newValue (ctx : AppContext) : Option AppContext :=
  match getSelectedSubkey ctx with
  | none => setMessage ctx (AppMessage.info "No key selected.")
  | some (state, key) =>
    match lookupA state.cached_values key with
    | none => none
    | some values =>
      let c := { ctx with input := { ctx.input with label := "Enter Name:" } }
      setTextareaInput c (.valueNameValidate values []) ConfirmFnD.newValueConfirm

/-- The presentation layer's text entry: the user edits the Input session's
text buffer between confirmations (glue for stating multi-step runs). -/
def setText (ctx : AppContext) (s : String) : AppContext :=
  { ctx with input := { ctx.input with textarea := s } }

/-! ### Concrete store models used by closed theorems and witnesses -/

/-- A store whose child listing comes back unsorted — the adapter contract
(`ListChildren`) promises no ordering. -/
def storeUnsorted : StoreModel :=
  { subkeysOf := fun _ => .ok ["b", "a"]
    openChild := fun _ _ => .ok 7
    openSelf := fun h => .ok h
    valuesOf := fun _ => .ok []
    createChild := fun _ _ => .ok ()
    renameChild := fun _ _ _ => .ok ()
    deleteChildTree := fun _ _ => .ok () }

/-- A store with a single child `"alpha"` everywhere and no failures. -/
def storeAlpha : StoreModel :=
  { subkeysOf := fun _ => .ok ["alpha"]
    openChild := fun _ _ => .ok 7
    openSelf := fun h => .ok h
    valuesOf := fun _ => .ok []
    createChild := fun _ _ => .ok ()
    renameChild := fun _ _ _ => .ok ()
    deleteChildTree := fun _ _ => .ok () }

/-! ### Claim C1 -/

/-- Claim C1: the spec says the controller sorts the unordered `ListChildren`
output before prefixing `".."`.  It does not: `create_subkeys` prefixes `".."`
to the adapter's list verbatim, so a store answering `["b", "a"]` makes `Open`
push a frame whose child list is `["..", "b", "a"]` — not sorted after the
synthetic entry — even though the downstream binary searches
(`post_action_add_subkey` / `post_action_delete_subkey`) require sortedness. -/
theorem claim_C1_no_sort_on_open :
    createSubkeys storeUnsorted 0 = some ["..", "b", "a"] ∧
    (select storeUnsorted AppContext.new).map getSubkeys = some ["..", "b", "a"] ∧
    ¬ SortedKeys ["b", "a"] :=
  ⟨rfl, rfl, by decide⟩

/-! ### Claim C2 -/

/-- A context in Input mode whose top frame has the single (sorted) child
`"beta"`, sitting at index 0. -/
def ctxDel0 : AppContext :=
  { AppContext.new with
    view_state := ViewState.input LastSelected.keys
    key_states := [{ key := 0, subkeys := ["beta"], cached_path := "Computer -> B",
                     cached_values := [] }] }

/-- Claim C2 counterexample: removing the entry at sorted index 0 does NOT
leave the selection at 0 — the source computes `index - 1` on `usize`, which
underflows (panics in debug builds, modelled as `Option.none`). -/
theorem claim_C2_counterexample :
    SortedKeys ["beta"] ∧
    postActionDeleteSubkey storeAlpha { name := "beta" } ctxDel0 = none :=
  ⟨by decide, rfl⟩

/-! ### Claim C9 -/

/-- Claim C9: reachable panic in `new_value`.  From the initial state, open the
first root entry (`select`), switch to the Values pane, and invoke the create
intent: the selection still sits on the synthetic `".."` child, whose value
list was never fetched (`select` does not populate the cache; only selection
movement in the Keys pane does), so `new_value`'s
`let Some(values) = state.cached_values.get(key) else { unreachable!() }`
panics (`Option.none`) instead of opening an input session or a message. -/
theorem claim_C9_new_value_panic :
    ∃ c1, select storeAlpha AppContext.new = some c1 ∧
      c1.key_states.length = 1 ∧
      c1.key_table.state.selected = some 0 ∧
      (swapViewingTable c1).view_state = ViewState.values ∧
      newValue (swapViewingTable c1) = none :=
  ⟨_, rfl, rfl, rfl, rfl, rfl⟩

/-! ### Claim C10 -/

/-- Claim C10: choice-input navigation wraps.  With `n` choices (`n ≥ 1` by
`InputChoices::new`'s assertion), `next_input_choice` moves the selection to
`(selected + 1) % n` and `prev_input_choice` to `(selected + n - 1) % n`; in
particular next from the last choice wraps to 0 and prev from 0 wraps to the
last choice. -/
theorem claim_C10_choice_wrap (ctx : AppContext) (items : List String) (s : Nat)
    (hty : ctx.input.ty = InputType.choice { items := items, selected := s })
    (hn : 1 ≤ items.length) :
    (nextInputChoice ctx).input.ty
      = InputType.choice { items := items, selected := (s + 1) % items.length } ∧
    (prevInputChoice ctx).input.ty
      = InputType.choice { items := items, selected := (s + items.length - 1) % items.length } ∧
    (s = items.length - 1 → (nextInputChoice ctx).input.ty
      = InputType.choice { items := items, selected := 0 }) ∧
    (s = 0 → (prevInputChoice ctx).input.ty
      = InputType.choice { items := items, selected := items.length - 1 }) := by
  refine ⟨by simp [nextInputChoice, hty], by simp [prevInputChoice, hty], ?_, ?_⟩
  · intro hs
    subst hs
    have h1 : items.length - 1 + 1 = items.length := Nat.sub_add_cancel hn
    simp [nextInputChoice, hty, h1, Nat.mod_self]
  · intro hs
    subst hs
    have h1 : items.length - 1 < items.length := by omega
    simp [prevInputChoice, hty, Nat.mod_eq_of_lt h1]

/-- A context holding a three-way choice session with the last choice selected. -/
def ctxChoice3 : AppContext :=
  { AppContext.new with
    view_state := ViewState.input LastSelected.keys
    input := { AppContext.new.input with
               ty := InputType.choice { items := ["a", "b", "c"], selected := 2 } } }

theorem claim_C10_witness :
    (nextInputChoice ctxChoice3).input.ty
      = InputType.choice { items := ["a", "b", "c"], selected := (2 + 1) % 3 } ∧
    (prevInputChoice ctxChoice3).input.ty
      = InputType.choice { items := ["a", "b", "c"], selected := (2 + 3 - 1) % 3 } ∧
    (2 = 2 → (nextInputChoice ctxChoice3).input.ty
      = InputType.choice { items := ["a", "b", "c"], selected := 0 }) ∧
    (2 = 0 → (prevInputChoice ctxChoice3).input.ty
      = InputType.choice { items := ["a", "b", "c"], selected := 2 }) :=
  claim_C10_choice_wrap ctxChoice3 ["a", "b", "c"] 2 rfl (by decide)

/-! ### Claim C7 -/

/-- Rust `input.trim().is_empty()` holds exactly when every character is
whitespace (in particular on the empty string). -/
theorem rustTrim_isEmpty_iff (l : List Char) :
    (rustTrim l).isEmpty = true ↔ ∀ c ∈ l, rustIsWhitespace c = true := by
  unfold rustTrim
  rw [List.isEmpty_iff, List.reverse_eq_nil_iff, List.dropWhile_eq_nil_iff]
  constructor
  · intro h c hc
    have hsplit := List.takeWhile_append_dropWhile rustIsWhitespace l
    rw [← hsplit] at hc
    rcases List.mem_append.mp hc with htake | hdrop
    · exact List.mem_takeWhile_imp htake
    · exact h c (List.mem_reverse.mpr hdrop)
  · intro h c hc
    exact h c (List.dropWhile_sublist _ |>.mem (List.mem_reverse.mp hc))

/-- Claim C7: the shared key-name validator rejects exactly empty or
whitespace-only input, input containing the path separator `'/'`, input longer
than 255 bytes, and input that case-insensitively (lowercase-compared) equals
an existing sibling name not matched by the exclusion set; everything else is
accepted. -/
theorem claim_C7_validator_exact (input : String) (subkeys exclude_keys : List String) :
    keyNameValidator input subkeys exclude_keys = Except.ok () ↔
      ¬ ((∀ c ∈ input.data, rustIsWhitespace c = true)
         ∨ '/' ∈ input.data
         ∨ 255 < utf8Len input.data
         ∨ ((∃ s ∈ subkeys, rustToLowercase s.data = rustToLowercase input.data)
            ∧ ¬ ∃ e ∈ exclude_keys, rustToLowercase e.data = rustToLowercase input.data)) := by
  have htrim : ((rustTrim input.data).isEmpty = true) ↔ ∀ c ∈ input.data, rustIsWhitespace c = true :=
    rustTrim_isEmpty_iff input.data
  unfold keyNameValidator
  by_cases h1 : ∀ c ∈ input.data, rustIsWhitespace c = true
  · rw [if_pos (htrim.mpr h1)]
    exact iff_of_false (by simp) (not_not_intro (Or.inl h1))
  · rw [if_neg (fun hc => h1 (htrim.mp hc))]
    by_cases h2 : '/' ∈ input.data
    · rw [if_pos (decide_eq_true h2)]
      exact iff_of_false (by simp) (not_not_intro (Or.inr (Or.inl h2)))
    · rw [if_neg (fun hc => h2 (of_decide_eq_true hc))]
      by_cases h3 : 255 < utf8Len input.data
      · rw [if_pos h3]
        exact iff_of_false (by simp) (not_not_intro (Or.inr (Or.inr (Or.inl h3))))
      · rw [if_neg h3]
        by_cases h4 : ((subkeys.find?
              (fun a => decide (rustToLowercase a.data = rustToLowercase input.data))).isSome
            && !(exclude_keys.any
              (fun a => decide (rustToLowercase a.data = rustToLowercase input.data)))) = true
        · rw [if_pos h4]
          rw [Bool.and_eq_true, Bool.not_eq_true'] at h4
          obtain ⟨hfound, hexcl⟩ := h4
          rw [List.find?_isSome] at hfound
          obtain ⟨s, hs, he⟩ := hfound
          have hD : (∃ s ∈ subkeys, rustToLowercase s.data = rustToLowercase input.data)
              ∧ ¬ ∃ e ∈ exclude_keys, rustToLowercase e.data = rustToLowercase input.data := by
            refine ⟨⟨s, hs, by simpa using he⟩, ?_⟩
            intro ⟨e, hse, hee⟩
            have hany : exclude_keys.any
                (fun a => decide (rustToLowercase a.data = rustToLowercase input.data)) = true :=
              List.any_eq_true.mpr ⟨e, hse, by simp [hee]⟩
            rw [hany] at hexcl
            exact Bool.noConfusion hexcl
          exact iff_of_false (by simp) (not_not_intro (Or.inr (Or.inr (Or.inr hD))))
        · rw [if_neg h4]
          constructor
          · intro _ hcon
            rcases hcon with hA | hB | hC | ⟨hD1, hD2⟩
            · exact h1 hA
            · exact h2 hB
            · exact h3 hC
            · apply h4
              rw [Bool.and_eq_true, Bool.not_eq_true']
              refine ⟨?_, ?_⟩
              · rw [List.find?_isSome]
                obtain ⟨s, hs, he⟩ := hD1
                exact ⟨s, hs, by simp [he]⟩
              · rw [Bool.eq_false_iff]
                intro hc
                rw [List.any_eq_true] at hc
                obtain ⟨e, hse, hee⟩ := hc
                exact hD2 ⟨e, hse, by simpa using hee⟩
          · intro _
            rfl

/-! ### Sorted insert / remove (claims C6 and C2) -/

theorem strLt_irrefl (a : String) : strLt a a = false := lexLt_irrefl a.data

theorem vecInsert_length (l : List String) (idx : Nat) (a : String) (h : idx ≤ l.length) :
    (vecInsert l idx a).length = l.length + 1 := by
  simp [vecInsert]
  omega

theorem sortedKeys_insert {l : List String} {t : String} {idx : Nat} (hs : SortedKeys l)
    (hidx : idx ≤ l.length)
    (hlo : ∀ i, i < idx → strLt (l.getD i "") t = true)
    (hhi : ∀ i, idx ≤ i → i < l.length → strLt t (l.getD i "") = true) :
    SortedKeys (vecInsert l idx t) := by
  unfold SortedKeys vecInsert
  rw [List.pairwise_append]
  refine ⟨hs.sublist (List.take_sublist idx l), ?_, ?_⟩
  · rw [List.pairwise_cons]
    refine ⟨?_, hs.sublist (List.drop_sublist idx l)⟩
    intro b hb
    rw [List.mem_iff_getElem] at hb
    obtain ⟨j, hj, hbj⟩ := hb
    have hjlen : idx + j < l.length := by
      simp only [List.length_drop] at hj
      omega
    have hbj2 : (l.drop idx).getD j "" = b := by
      rw [List.getD_eq_getElem _ "" hj]
      exact hbj
    have hval : (l.drop idx).getD j "" = l.getD (idx + j) "" := by
      rw [List.getD_eq_getElem _ "" hj, List.getD_eq_getElem _ "" hjlen]
      exact List.getElem_drop ..
    rw [← hbj2, hval]
    exact hhi (idx + j) (by omega) hjlen
  · intro a ha b hb
    rw [List.mem_iff_getElem] at ha
    obtain ⟨i, hi, hai⟩ := ha
    have hiidx : i < idx := by
      simp only [List.length_take] at hi
      omega
    have hilen : i < l.length := by omega
    have hai2 : (l.take idx).getD i "" = a := by
      rw [List.getD_eq_getElem _ "" hi]
      exact hai
    have hvala : (l.take idx).getD i "" = l.getD i "" := by
      rw [List.getD_eq_getElem _ "" hi, List.getD_eq_getElem _ "" hilen]
      exact List.getElem_take ..
    rcases List.mem_cons.mp hb with rfl | hbd
    · rw [← hai2, hvala]
      exact hlo i hiidx
    · rw [List.mem_iff_getElem] at hbd
      obtain ⟨j, hj, hbj⟩ := hbd
      have hjlen : idx + j < l.length := by
        simp only [List.length_drop] at hj
        omega
      have hbj2 : (l.drop idx).getD j "" = b := by
        rw [List.getD_eq_getElem _ "" hj]
        exact hbj
      have hvalb : (l.drop idx).getD j "" = l.getD (idx + j) "" := by
        rw [List.getD_eq_getElem _ "" hj, List.getD_eq_getElem _ "" hjlen]
        exact List.getElem_drop ..
      rw [← hai2, hvala, ← hbj2, hvalb]
      exact sortedKeys_getD_lt hs (by omega) hjlen

/-! ### Claim C6 -/

/-- Claim C6: `InsertChild(name)` on a top frame with a sorted child list
inserts `name` at its sorted position, resizes the Children selection to the
new length, keeps the list sorted, and selects the newly inserted index.
(`hview` records that the post-action runs while the view is in Input or
Message mode, as in `confirm_input`.) -/
theorem claim_C6_sorted_insert (st : StoreModel) (ctx : AppContext) (name : String)
    (last : KeyState) (rest : List KeyState)
    (hview : ctx.view_state ≠ ViewState.keys)
    (hstack : ctx.key_states = last :: rest)
    (hsorted : SortedKeys last.subkeys)
    (hnotmem : name ∉ last.subkeys) :
    ∃ idx, idx ≤ last.subkeys.length ∧
      (∀ i, i < idx → strLt (last.subkeys.getD i "") name = true) ∧
      (∀ i, idx ≤ i → i < last.subkeys.length → strLt name (last.subkeys.getD i "") = true) ∧
      SortedKeys (vecInsert last.subkeys idx name) ∧
      postActionAddSubkey st { name := name } ctx =
        some { ctx with
               key_states := { last with subkeys := vecInsert last.subkeys idx name } :: rest
               key_table := { state := { selected := some idx },
                              scroll := { contentLen := (last.subkeys.length + 1) * ITEM_HEIGHT,
                                          position := idx * ITEM_HEIGHT },
                              content_length := (last.subkeys.length + 1) * ITEM_HEIGHT } } := by
  have hspec := rustBinarySearchBy_spec last.subkeys name hsorted
  cases hbs : rustBinarySearchBy last.subkeys name with
  | inl m =>
    rw [hbs] at hspec
    obtain ⟨hm, hval⟩ := hspec
    exfalso
    apply hnotmem
    rw [← hval, List.getD_eq_getElem last.subkeys "" hm]
    exact List.getElem_mem ..
  | inr idx =>
    rw [hbs] at hspec
    obtain ⟨hlen, hlo, hhi⟩ := hspec
    refine ⟨idx, hlen, hlo, hhi, sortedKeys_insert hsorted hlen hlo hhi, ?_⟩
    unfold postActionAddSubkey selectRowIn getTableByView setTableByView
    rw [hstack]
    simp only [hbs, ScrollableTableState.resize]
    rw [if_neg hview, vecInsert_length last.subkeys idx name hlen]

/-- Witness: the spec's own example.  Inserting `"beta"` into the sorted
children `["alpha", "gamma"]` yields `["alpha", "beta", "gamma"]` with
selection index 1. -/
def ctxInsertAG : AppContext :=
  { AppContext.new with
    view_state := ViewState.message LastSelected.keys
    key_states := [{ key := 0, subkeys := ["alpha", "gamma"],
                     cached_path := "Computer -> K", cached_values := [] }] }

theorem claim_C6_witness :
    (∃ idx, idx ≤ 2 ∧
      (∀ i, i < idx → strLt ((["alpha", "gamma"] : List String).getD i "") "beta" = true) ∧
      (∀ i, idx ≤ i → i < 2 → strLt "beta" ((["alpha", "gamma"] : List String).getD i "") = true) ∧
      SortedKeys (vecInsert ["alpha", "gamma"] idx "beta") ∧
      postActionAddSubkey storeAlpha { name := "beta" } ctxInsertAG =
        some { ctxInsertAG with
               key_states := [{ key := 0, subkeys := vecInsert ["alpha", "gamma"] idx "beta",
                                cached_path := "Computer -> K", cached_values := [] }]
               key_table := { state := { selected := some idx },
                              scroll := { contentLen := 3 * ITEM_HEIGHT,
                                          position := idx * ITEM_HEIGHT },
                              content_length := 3 * ITEM_HEIGHT } }) ∧
    (postActionAddSubkey storeAlpha { name := "beta" } ctxInsertAG).map
        (fun c => (getSubkeys c, c.key_table.state.selected))
      = some (["alpha", "beta", "gamma"], some 1) :=
  ⟨claim_C6_sorted_insert storeAlpha ctxInsertAG "beta"
      { key := 0, subkeys := ["alpha", "gamma"], cached_path := "Computer -> K",
        cached_values := [] } []
      (by decide) rfl (by decide) (by decide),
   rfl⟩

/-! ### Claim C2 (amended theorem) -/

/-- Claim C2 (amended): `RemoveChild(name)` on a top frame with a sorted child
list, where some child sorts strictly below `name` (equivalently: `name` does
not occupy index 0 — in the code's flows the synthetic `".."` there is never
deletable), removes `name` at its sorted position `idx ≥ 1`, resizes the
Children selection, and selects `idx - 1`.  (At `idx = 0` the source would
underflow instead; see the counterexample.) -/
theorem claim_C2_remove_repair (st : StoreModel) (ctx : AppContext) (name : String)
    (last : KeyState) (rest : List KeyState)
    (hview : ctx.view_state ≠ ViewState.keys)
    (hstack : ctx.key_states = last :: rest)
    (hsorted : SortedKeys last.subkeys)
    (hmem : name ∈ last.subkeys)
    (hbelow : ∃ a ∈ last.subkeys, strLt a name = true) :
    ∃ idx, 0 < idx ∧ idx < last.subkeys.length ∧
      last.subkeys.getD idx "" = name ∧
      (∀ i, i < idx → strLt (last.subkeys.getD i "") name = true) ∧
      postActionDeleteSubkey st { name := name } ctx =
        some { ctx with
               key_states := { last with subkeys := last.subkeys.eraseIdx idx } :: rest
               key_table := { state := { selected := some (idx - 1) },
                              scroll := { contentLen := (last.subkeys.length - 1) * ITEM_HEIGHT,
                                          position := (idx - 1) * ITEM_HEIGHT },
                              content_length := (last.subkeys.length - 1) * ITEM_HEIGHT } } := by
  have hspec := rustBinarySearchBy_spec last.subkeys name hsorted
  cases hbs : rustBinarySearchBy last.subkeys name with
  | inr j =>
    rw [hbs] at hspec
    obtain ⟨_, hlo, hhi⟩ := hspec
    exfalso
    rw [List.mem_iff_getElem] at hmem
    obtain ⟨k, hk, hkv⟩ := hmem
    by_cases hkj : k < j
    · have := hlo k hkj
      rw [List.getD_eq_getElem last.subkeys "" hk, hkv, strLt_irrefl] at this
      exact Bool.noConfusion this
    · have := hhi k (by omega) hk
      rw [List.getD_eq_getElem last.subkeys "" hk, hkv, strLt_irrefl] at this
      exact Bool.noConfusion this
  | inl m =>
    rw [hbs] at hspec
    obtain ⟨hmlen, hmval⟩ := hspec
    have hlo : ∀ i, i < m → strLt (last.subkeys.getD i "") name = true := by
      intro i hi
      have := sortedKeys_getD_lt hsorted hi hmlen
      rwa [hmval] at this
    have hm0 : 0 < m := by
      rcases Nat.eq_zero_or_pos m with hz | hp
      · exfalso
        obtain ⟨a, ha, halt⟩ := hbelow
        rw [List.mem_iff_getElem] at ha
        obtain ⟨k, hk, hkv⟩ := ha
        rcases Nat.eq_zero_or_pos k with hkz | hkp
        · subst hkz
          have h0 : last.subkeys.getD 0 "" = name := hz ▸ hmval
          rw [List.getD_eq_getElem last.subkeys "" hk] at h0
          rw [hkv] at h0
          rw [h0, strLt_irrefl] at halt
          exact Bool.noConfusion halt
        · have hlt := sortedKeys_getD_lt hsorted hkp hk
          have h0 : last.subkeys.getD 0 "" = name := hz ▸ hmval
          rw [List.getD_eq_getElem last.subkeys "" hk, hkv] at hlt
          rw [h0] at hlt
          have := strLt_trans hlt halt
          rw [strLt_irrefl] at this
          exact Bool.noConfusion this
      · exact hp
    refine ⟨m, hm0, hmlen, hmval, hlo, ?_⟩
    unfold postActionDeleteSubkey selectRowIn getTableByView setTableByView
    rw [hstack]
    simp only [hbs, ScrollableTableState.resize]
    rw [if_neg (by omega : ¬ m = 0), if_neg hview]
    rw [List.length_eraseIdx, if_pos hmlen]

/-- Witness for the amended C2: the spec's own example, with the synthetic
`".."` present — deleting `"beta"`, the child at sorted index 2 of the
3-entry list `["..", "alpha", "beta"]`, leaves the selection at index 1. -/
def ctxDelAB : AppContext :=
  { AppContext.new with
    view_state := ViewState.message LastSelected.keys
    key_states := [{ key := 0, subkeys := ["..", "alpha", "beta"],
                     cached_path := "Computer -> K", cached_values := [] }] }

theorem claim_C2_witness :
    ∃ idx, 0 < idx ∧ idx < 3 ∧
      (["..", "alpha", "beta"] : List String).getD idx "" = "beta" ∧
      (∀ i, i < idx → strLt ((["..", "alpha", "beta"] : List String).getD i "") "beta" = true) ∧
      postActionDeleteSubkey storeAlpha { name := "beta" } ctxDelAB =
        some { ctxDelAB with
               key_states := [{ key := 0,
                                subkeys := (["..", "alpha", "beta"] : List String).eraseIdx idx,
                                cached_path := "Computer -> K", cached_values := [] }]
               key_table := { state := { selected := some (idx - 1) },
                              scroll := { contentLen := 2 * ITEM_HEIGHT,
                                          position := (idx - 1) * ITEM_HEIGHT },
                              content_length := 2 * ITEM_HEIGHT } } :=
  claim_C2_remove_repair storeAlpha ctxDelAB "beta"
    { key := 0, subkeys := ["..", "alpha", "beta"], cached_path := "Computer -> K",
      cached_values := [] } []
    (by decide) rfl (by decide) (by decide) ⟨"alpha", by decide, by decide⟩

/-! ### Claim C5 -/

/-- Claim C5: value lookups are memoized per frame and degrade rather than
error.  (1) Two consecutive `update_values` runs with no intervening mutation
invoke the store's value listing at most once in total: the first run either
hits the cache or populates it, and the second is served from the cache.
(2) On an empty navigation stack (with an in-range selection) `update_values`
is a no-op returning no entry and performing no adapter call.  (3) When the
lookup fails (opening the child fails, or listing its values fails), the empty
list is cached for that child and the Values pane is resized to empty —
no error is surfaced. -/
theorem claim_C5_memoized_lookup :
    (∀ (st : StoreModel) (ctx c1 c2 : AppContext) (n1 n2 : Nat),
      updateValues st ctx = some (c1, n1) →
      updateValues st c1 = some (c2, n2) →
      n1 + n2 ≤ 1)
  ∧ (∀ (st : StoreModel) (ctx : AppContext),
      ctx.key_states = [] →
      (∀ j, ctx.key_table.state.selected = some j → j < (getSubkeys ctx).length) →
      updateValues st ctx = some (ctx, 0))
  ∧ (∀ (st : StoreModel) (ctx : AppContext) (i : Nat) (ks : KeyState) (rest : List KeyState),
      ctx.key_table.state.selected = some i →
      i < (getSubkeys ctx).length →
      ctx.key_states = ks :: rest →
      lookupA ks.cached_values ((getSubkeys ctx).getD i "") = none →
      ((st.openChild ks.key ((getSubkeys ctx).getD i "")).isOk = false ∨
        (∃ h, st.openChild ks.key ((getSubkeys ctx).getD i "") = .ok h ∧
          (st.valuesOf h).isOk = false)) →
      ∃ c1 n, updateValues st ctx = some (c1, n) ∧
        (∃ ks', c1.key_states = ks' :: rest ∧
          lookupA ks'.cached_values ((getSubkeys ctx).getD i "") = some []) ∧
        c1.value_table.content_length = 0) := by
  refine ⟨?_, ?_, ?_⟩
  · intro st ctx c1 c2 n1 n2 h1 h2
    cases hsel : ctx.key_table.state.selected with
    | none =>
      simp only [updateValues, hsel] at h1
      injection h1 with hpair
      injection hpair with ha hb
      subst ha
      subst hb
      simp only [updateValues, hsel] at h2
      injection h2 with hpair2
      injection hpair2 with ha2 hb2
      omega
    | some i =>
      by_cases hrange : i < (getSubkeys ctx).length
      · cases hks : ctx.key_states with
        | nil =>
          simp only [updateValues, hsel, hrange, if_true, hks] at h1
          injection h1 with hpair
          injection hpair with ha hb
          subst ha
          subst hb
          simp only [updateValues, hsel, hrange, if_true, hks] at h2
          injection h2 with hpair2
          injection hpair2 with ha2 hb2
          omega
        | cons ks rest =>
          have hgs : getSubkeys ctx = ks.subkeys := by
            unfold getSubkeys
            rw [hks]
          rw [hgs] at hrange
          cases hlook : lookupA ks.cached_values (ks.subkeys.getD i "") with
          | some entry =>
            simp only [updateValues, hsel, hgs, hrange, if_true, hks, hlook] at h1
            injection h1 with hpair
            injection hpair with ha hb
            subst ha
            subst hb
            simp only [updateValues, getSubkeys, hsel, hrange, if_true, hlook] at h2
            injection h2 with hpair2
            injection hpair2 with ha2 hb2
            omega
          | none =>
            rcases hoc : st.openChild ks.key (ks.subkeys.getD i "") with e | hk
            · simp only [updateValues, hsel, hgs, hrange, if_true, hks, hlook, hoc] at h1
              injection h1 with hpair
              injection hpair with ha hb
              subst ha
              subst hb
              simp only [updateValues, getSubkeys, hsel, hrange, if_true, lookupA,
                if_pos rfl] at h2
              injection h2 with hpair2
              injection hpair2 with ha2 hb2
              omega
            · rcases hvc : st.valuesOf hk with e | vs
              · simp only [updateValues, hsel, hgs, hrange, if_true, hks, hlook, hoc,
                  hvc] at h1
                injection h1 with hpair
                injection hpair with ha hb
                subst ha
                subst hb
                simp only [updateValues, getSubkeys, hsel, hrange, if_true, lookupA,
                  if_pos rfl] at h2
                injection h2 with hpair2
                injection hpair2 with ha2 hb2
                omega
              · simp only [updateValues, hsel, hgs, hrange, if_true, hks, hlook, hoc,
                  hvc] at h1
                injection h1 with hpair
                injection hpair with ha hb
                subst ha
                subst hb
                simp only [updateValues, getSubkeys, hsel, hrange, if_true, lookupA,
                  if_pos rfl] at h2
                injection h2 with hpair2
                injection hpair2 with ha2 hb2
                omega
      · simp only [updateValues, hsel, hrange, if_false] at h1
        exact absurd h1 (by simp)
  · intro st ctx hks hrange
    cases hsel : ctx.key_table.state.selected with
    | none => simp only [updateValues, hsel]
    | some j =>
      have hr := hrange j hsel
      simp only [updateValues, hsel, hr, if_true, hks]
  · intro st ctx i ks rest hsel hrange hks hlook hfail
    have hfet : (match st.openChild ks.key ((getSubkeys ctx).getD i "") with
        | .error _ => (([] : List NamedValue), 0)
        | .ok key =>
          match st.valuesOf key with
          | .ok values => (values.map (fun (p : String × RegValue) => NamedValue.new p.1 p.2), 1)
          | .error _ => ([], 1)).1 = ([] : List NamedValue) := by
      rcases hfail with hopen | ⟨h, hopen, hvals⟩
      · cases hoc : st.openChild ks.key ((getSubkeys ctx).getD i "") with
        | error e => rfl
        | ok k =>
          rw [hoc] at hopen
          exact Bool.noConfusion hopen
      · rw [hopen]
        cases hvc : st.valuesOf h with
        | error e => simp [hvc]
        | ok vs =>
          rw [hvc] at hvals
          exact Bool.noConfusion hvals
    simp only [updateValues, hsel, hrange, if_true, hks, hlook]
    rw [hfet]
    refine ⟨_, _, rfl, ⟨_, rfl, ?_⟩, ?_⟩
    · simp [lookupA]
    · simp [ScrollableTableState.resize]

/-- Concrete two-run memoization trace: the first `update_values` fetches and
caches (one adapter call), the second is served from the cache (none). -/
def storeVals : StoreModel :=
  { subkeysOf := fun _ => .ok ["alpha"]
    openChild := fun _ _ => .ok 9
    openSelf := fun h => .ok h
    valuesOf := fun _ => .ok [("v", { ty := .u32, raw := [1, 0, 0, 0] })]
    createChild := fun _ _ => .ok ()
    renameChild := fun _ _ _ => .ok ()
    deleteChildTree := fun _ _ => .ok () }

def ctxVals : AppContext :=
  { AppContext.new with
    key_states := [{ key := 0, subkeys := ["..", "alpha"],
                     cached_path := "Computer -> K", cached_values := [] }] }

theorem claim_C5_witness :
    ∃ c1 c2 n1 n2, updateValues storeVals ctxVals = some (c1, n1) ∧
      updateValues storeVals c1 = some (c2, n2) ∧ n1 = 1 ∧ n2 = 0 ∧ n1 + n2 ≤ 1 :=
  ⟨_, _, _, _, rfl, rfl, rfl, rfl,
    claim_C5_memoized_lookup.1 storeVals ctxVals _ _ _ _ rfl rfl⟩

/-! ### Claim C4 -/

/-- The state `confirm_input` leaves behind when a mutating command's store
call fails: the error message is shown (view moves to Message mode), no
post-action ran, and the input session fields are cleared by `reset_input`
(the text buffer only for text-area sessions). -/
def c4After (ctx : AppContext) (ls : LastSelected) (err : String) (ty : InputType)
    (ta : String) : AppContext :=
  { ctx with
    view_state := ViewState.message ls
    message := some (AppMessage.error err)
    input := { label := "No Input Required", textarea := ta, validate_fn := none,
               confirm_fn := none, ty := ty } }

/-- Claim C4: when a confirmed mutating command (create key / rename key /
delete key) hits a store error, `confirm_input` shows an error Message whose
text carries the adapter's message, the post-action is `None` so the local
child list and caches are untouched, and dismissing the message returns to the
pane that was active before the input session. -/
theorem claim_C4_store_error (st : StoreModel) (ctx : AppContext) (msg : String)
    (ls : LastSelected) (pane : ViewState) (pfx text : String)
    (hview : ctx.view_state = ViewState.input ls)
    (hpane : lastToView ls = some pane)
    (hok : validationFailed ctx.input = false)
    (hcmd :
      (∃ k, ctx.input.confirm_fn = some (.newKeyConfirm k) ∧
        ctx.input.ty = InputType.textArea ∧ text = ctx.input.textarea ∧
        st.createChild k text = .error msg ∧ pfx = "Error when creating a new key: ")
      ∨ (∃ k cur, ctx.input.confirm_fn = some (.renameKeyConfirm k cur) ∧
        ctx.input.ty = InputType.textArea ∧ text = ctx.input.textarea ∧
        st.renameChild k cur text = .error msg ∧ pfx = "Error when renaming the key: ")
      ∨ (∃ k cur ch, ctx.input.confirm_fn = some (.deleteKeyConfirm k cur) ∧
        ctx.input.ty = InputType.choice ch ∧ ch.items.get? ch.selected = some text ∧
        strEqb text "No" = false ∧
        st.deleteChildTree k cur = .error msg ∧ pfx = "Error when deleting the key: ")) :
    ∃ c', confirmInput st ctx = some (c', some ActionTag.noAction) ∧
      c'.message = some (AppMessage.error (pfx ++ msg)) ∧
      c'.key_states = ctx.key_states ∧
      c'.view_state = ViewState.message ls ∧
      ∃ c2, cancelMessage c' = some c2 ∧ c2.view_state = pane ∧ c2.message = none := by
  rcases hcmd with ⟨k, hcf, hty, htext, hstore, hpfx⟩ |
      ⟨k, cur, hcf, hty, htext, hstore, hpfx⟩ |
      ⟨k, cur, ch, hcf, hty, hget, hno, hstore, hpfx⟩
  · subst htext
    subst hpfx
    refine ⟨c4After ctx ls ("Error when creating a new key: " ++ msg) InputType.textArea "",
      ?_, rfl, rfl, rfl,
      { c4After ctx ls ("Error when creating a new key: " ++ msg) InputType.textArea "" with
        view_state := pane, message := none }, ?_, rfl, rfl⟩
    · simp only [confirmInput, hok, Bool.false_eq_true, if_false, hty, hcf,
        InputState.text, applyConfirm, hstore, hview, setMessageWithState, resetInput,
        InputType.isTextArea, if_true, c4After]
      rfl
    · simp only [cancelMessage, c4After, hpane]
  · subst htext
    subst hpfx
    refine ⟨c4After ctx ls ("Error when renaming the key: " ++ msg) InputType.textArea "",
      ?_, rfl, rfl, rfl,
      { c4After ctx ls ("Error when renaming the key: " ++ msg) InputType.textArea "" with
        view_state := pane, message := none }, ?_, rfl, rfl⟩
    · simp only [confirmInput, hok, Bool.false_eq_true, if_false, hty, hcf,
        InputState.text, applyConfirm, hstore, hview, setMessageWithState, resetInput,
        InputType.isTextArea, if_true, c4After]
      rfl
    · simp only [cancelMessage, c4After, hpane]
  · subst hpfx
    refine ⟨c4After ctx ls ("Error when deleting the key: " ++ msg) (InputType.choice ch)
        ctx.input.textarea,
      ?_, rfl, rfl, rfl,
      { c4After ctx ls ("Error when deleting the key: " ++ msg) (InputType.choice ch)
          ctx.input.textarea with
        view_state := pane, message := none }, ?_, rfl, rfl⟩
    · simp only [confirmInput, hok, Bool.false_eq_true, if_false, hty, hget, hcf,
        applyConfirm, hno, hstore, hview, setMessageWithState, resetInput,
        InputType.isTextArea, if_true, c4After]
      rfl
    · simp only [cancelMessage, c4After, hpane]

/-- A store on which every mutating call fails with a fixed message. -/
def storeFail : StoreModel :=
  { subkeysOf := fun _ => .ok ["alpha"]
    openChild := fun _ _ => .ok 7
    openSelf := fun h => .ok h
    valuesOf := fun _ => .ok []
    createChild := fun _ _ => .error "access is denied"
    renameChild := fun _ _ _ => .error "access is denied"
    deleteChildTree := fun _ _ => .error "access is denied" }

/-- A context mid-way through the create-key input session. -/
def ctxNewKey : AppContext :=
  { AppContext.new with
    view_state := ViewState.input LastSelected.keys
    key_states := [{ key := 0, subkeys := ["..", "alpha"],
                     cached_path := "Computer -> K", cached_values := [] }]
    input := { label := "Enter Name:", textarea := "newkey",
               validate_fn := some (.keyNameValidate ["..", "alpha"] []),
               confirm_fn := some (.newKeyConfirm 0), ty := InputType.textArea } }

set_option maxRecDepth 16384 in
theorem claim_C4_witness :
    ∃ c', confirmInput storeFail ctxNewKey = some (c', some ActionTag.noAction) ∧
      c'.message = some (AppMessage.error ("Error when creating a new key: "
        ++ "access is denied")) ∧
      c'.key_states = ctxNewKey.key_states ∧
      c'.view_state = ViewState.message LastSelected.keys ∧
      ∃ c2, cancelMessage c' = some c2 ∧ c2.view_state = ViewState.keys ∧
        c2.message = none :=
  claim_C4_store_error storeFail ctxNewKey "access is denied" LastSelected.keys
    ViewState.keys "Error when creating a new key: " "newkey" rfl rfl (by decide)
    (Or.inl ⟨0, rfl, rfl, rfl, rfl, rfl⟩)

/-! ### Claim C8 -/

/-- Presentation glue: the user moves the Keys cursor to row `i` before
pressing Enter (on the empty stack selection movement has no other effect). -/
def withSelection (ctx : AppContext) (i : Nat) : AppContext :=
  { ctx with key_table := { ctx.key_table with state := { selected := some i } } }

/-- On the root listing, `find` locates the `i`-th default key: the handle is
`i` itself in the model. -/
theorem defaultKeys_find (i : Nat) (hi : i < 5) :
    DEFAULT_KEYS.find? (fun p => strEqb p.2 ((DEFAULT_KEYS.map (·.2)).getD i ""))
      = some (i, (DEFAULT_KEYS.map (·.2)).getD i "") := by
  revert i
  decide

/-- Claim C8: `Open(i)` on a root entry followed by `Open(0)` (the synthetic
"go up") returns the navigation stack to empty and the breadcrumb to the root
label `"Computer"`.  The second `Open` naturally targets index 0 because the
resize performed by the first one resets the Keys selection to 0. -/
theorem claim_C8_open_up_round_trip (st : StoreModel) (i : Nat)
    (hi : i < AppContext.new.base_subkeys.length)
    (hsub : (st.subkeysOf i).isOk = true)
    (hself : (st.openSelf i).isOk = true) :
    (select st (withSelection AppContext.new i)).map
        (fun c => (c.key_states.length, c.key_table.state.selected)) = some (1, some 0) ∧
    ((select st (withSelection AppContext.new i)).bind (select st)).map
        (fun c => (c.key_states, getPath c)) = some ([], "Computer") := by
  have hi5 : i < 5 := hi
  obtain ⟨l, hl⟩ : ∃ l, st.subkeysOf i = .ok l := by
    cases h : st.subkeysOf i with
    | error e => rw [h] at hsub; exact Bool.noConfusion hsub
    | ok l => exact ⟨l, rfl⟩
  obtain ⟨h2, hh2⟩ : ∃ h2, st.openSelf i = .ok h2 := by
    cases h : st.openSelf i with
    | error e => rw [h] at hself; exact Bool.noConfusion hself
    | ok k => exact ⟨k, rfl⟩
  have hfind := defaultKeys_find i hi5
  have hstep : select st (withSelection AppContext.new i) =
      some { AppContext.new with
             key_table := { state := { selected := some 0 },
                            scroll := { contentLen := (".." :: l).length * ITEM_HEIGHT,
                                        position := 0 },
                            content_length := (".." :: l).length * ITEM_HEIGHT }
             key_states := [KeyState.new h2 ((DEFAULT_KEYS.map (·.2)).getD i "")
               (".." :: l) "Computer"] } := by
    simp only [select, withSelection, getKeyViewState, selectBase, AppContext.new]
    rw [if_pos (show i < (DEFAULT_KEYS.map (·.2)).length from hi5)]
    simp only [hfind, createSubkeys, hl, hh2, getSubkeys, KeyState.new,
      ScrollableTableState.resize, Option.map]
    rfl
  refine ⟨?_, ?_⟩
  · rw [hstep]
    rfl
  · rw [hstep]
    simp only [Option.bind, select, getKeyViewState, selectKey, getSubkeys, List.tail_cons,
      ScrollableTableState.resize, Option.map, getPath, AppContext.new, KeyState.new]

theorem claim_C8_witness :
    (select storeAlpha (withSelection AppContext.new 3)).map
        (fun c => (c.key_states.length, c.key_table.state.selected)) = some (1, some 0) ∧
    ((select storeAlpha (withSelection AppContext.new 3)).bind (select storeAlpha)).map
        (fun c => (c.key_states, getPath c)) = some ([], "Computer") :=
  claim_C8_open_up_round_trip storeAlpha 3 (by decide) rfl rfl

/-! ### Claim C3 -/

theorem nextInputChoice_iterate (k : Nat) :
    ∀ (c : AppContext) (items : List String) (s : Nat),
    s < items.length →
    c.input.ty = InputType.choice { items := items, selected := s } →
    (nextInputChoice)^[k] c =
      { c with input := { c.input with
          ty := InputType.choice { items := items, selected := (s + k) % items.length } } } := by
  induction k with
  | zero =>
    intro c items s hs h
    have hmod : (s + 0) % items.length = s := by
      rw [Nat.add_zero]
      exact Nat.mod_eq_of_lt hs
    rw [Function.iterate_zero_apply, hmod, ← h]
  | succ n ih =>
    intro c items s hs h
    rw [Function.iterate_succ_apply]
    have hnext : nextInputChoice c =
        { c with input := { c.input with
            ty := InputType.choice { items := items, selected := (s + 1) % items.length } } } := by
      simp [nextInputChoice, h]
    rw [hnext]
    have hlen : 0 < items.length := by omega
    have hstep := ih { c with input := { c.input with
        ty := InputType.choice { items := items, selected := (s + 1) % items.length } } }
      items ((s + 1) % items.length) (Nat.mod_lt _ hlen) rfl
    rw [hstep]
    have harith : ((s + 1) % items.length + n) % items.length
        = (s + (n + 1)) % items.length := by
      rw [Nat.mod_add_mod]
      ring_nf
    rw [harith]

/-- State after `new_value` opened the name prompt of the staged
"create value" command. -/
def stageName (c0 : AppContext) (vs : List NamedValue) : AppContext :=
  { c0 with
    view_state := ViewState.input LastSelected.values
    input := { label := "Enter Name:", textarea := "",
               validate_fn := some (.valueNameValidate vs []),
               confirm_fn := some .newValueConfirm, ty := .textArea } }

/-- State after the name was confirmed: the Input session was replaced in
place by the type-choice prompt (selection at `sel`). -/
def stageTypeAt (c0 : AppContext) (name : String) (sel : Nat) : AppContext :=
  { c0 with
    view_state := ViewState.input LastSelected.values
    input := { label := "Choose Type:", textarea := name, validate_fn := none,
               confirm_fn := some (.stageTypeConfirm name),
               ty := .choice { items := getTypeChoicesVec, selected := sel } } }

/-- State after the type was confirmed: the Input session was replaced in
place by the data prompt. -/
def stageData (c0 : AppContext) (name : String) (rty : RegType) : AppContext :=
  { c0 with
    view_state := ViewState.input LastSelected.values
    input := { label := "Enter Value:", textarea := "",
               validate_fn := some .stageDataValidate,
               confirm_fn := some (.stageDataConfirm name rty), ty := .textArea } }

/-- State after the final confirmation: the Input session is torn down and the
view returns to the Values pane. -/
def inputDone (c0 : AppContext) : AppContext :=
  { c0 with
    view_state := ViewState.values
    input := { label := "No Input Required", textarea := "", validate_fn := none,
               confirm_fn := none, ty := .textArea } }

/-- Claim C3: staged "create value" sequencing.  Starting from the Values pane
with the selected child's values cached, `new_value` opens a name prompt; the
first two confirmations return `Stage` post-actions that replace the Input
session in place (the view stays `Input(Values)` and the session is not
closed), and only the third confirmation produces a terminal (non-`Stage`)
post-action — exactly one across the three — after which the view leaves
`Input` and returns to the Values pane.  `k` is any number of choice-navigation
steps the user performs before confirming the type. -/
theorem claim_C3_staged_sequencing (st : StoreModel) (c0 : AppContext)
    (ks : KeyState) (nm : String) (vs : List NamedValue) (name data : String) (k : Nat)
    (hview : c0.view_state = ViewState.values)
    (hsel : getSelectedSubkey c0 = some (ks, nm))
    (hcache : lookupA ks.cached_values nm = some vs)
    (hvalid : valueNameValidator name vs [] = Except.ok ()) :
    newValue c0 = some (stageName c0 vs) ∧
    (stageName c0 vs).view_state = ViewState.input LastSelected.values ∧
    confirmInput st (setText (stageName c0 vs) name)
      = some (stageTypeAt c0 name 0, some ActionTag.stage) ∧
    (stageTypeAt c0 name 0).view_state = ViewState.input LastSelected.values ∧
    (∃ sel, sel < getTypeChoicesVec.length ∧
      (nextInputChoice)^[k] (stageTypeAt c0 name 0) = stageTypeAt c0 name sel ∧
      ∃ rty, confirmInput st (stageTypeAt c0 name sel)
          = some (stageData c0 name rty, some ActionTag.stage) ∧
        (stageData c0 name rty).view_state = ViewState.input LastSelected.values ∧
        confirmInput st (setText (stageData c0 name rty) data)
          = some (inputDone c0, some ActionTag.noAction) ∧
        (inputDone c0).view_state = ViewState.values) := by
  have hchoices : InputChoices.new getTypeChoicesVec
      = some { items := getTypeChoicesVec, selected := 0 } := rfl
  refine ⟨?_, rfl, ?_, rfl, ?_⟩
  · simp only [newValue, hsel, hcache, setTextareaInput, setInputState, hview,
      viewToLast, Option.map, stageName]
  · simp only [confirmInput, validationFailed, InputState.validate, InputState.text,
      setText, stageName, Option.map, applyValidate, hvalid, applyConfirm,
      postActionStage, inputStageNewValueType, setChoiceInput, hchoices, setInputState,
      stageTypeAt]
    rfl
  · refine ⟨k % getTypeChoicesVec.length, Nat.mod_lt _ (by decide), ?_, ?_⟩
    · have := nextInputChoice_iterate k (stageTypeAt c0 name 0) getTypeChoicesVec 0
        (by decide) rfl
      rw [this]
      simp only [Nat.zero_add]
      rfl
    · cases hg : getTypeChoicesVec.get? (k % getTypeChoicesVec.length) with
      | none =>
        exfalso
        rw [List.get?_eq_none] at hg
        exact absurd hg (by
          have := Nat.mod_lt k (show 0 < getTypeChoicesVec.length by decide)
          omega)
      | some t =>
        refine ⟨strToType t, ?_, rfl, ?_, rfl⟩
        · simp only [confirmInput, validationFailed, InputState.validate, stageTypeAt,
            hg, applyConfirm, postActionStage, inputStageNewValueData, setTextareaInput,
            setInputState, Option.map, stageData]
          rfl
        · simp only [confirmInput, validationFailed, InputState.validate, InputState.text,
            setText, stageData, Option.map, applyValidate, applyConfirm, resetInput,
            InputType.isTextArea, lastToView, inputDone]
          rfl

/-- A frame whose child `"alpha"` already has its (empty) value list cached,
with the Keys cursor on it and the Values pane active. -/
def ksStage : KeyState :=
  { key := 0, subkeys := ["..", "alpha"], cached_path := "Computer -> K",
    cached_values := [("alpha", [])] }

def ctxStage : AppContext :=
  { AppContext.new with
    view_state := ViewState.values
    key_table := { state := { selected := some 1 },
                   scroll := { contentLen := 2, position := 1 }, content_length := 2 }
    key_states := [ksStage] }

theorem claim_C3_witness :
    newValue ctxStage = some (stageName ctxStage []) ∧
    (stageName ctxStage []).view_state = ViewState.input LastSelected.values ∧
    confirmInput storeAlpha (setText (stageName ctxStage []) "v1")
      = some (stageTypeAt ctxStage "v1" 0, some ActionTag.stage) ∧
    (stageTypeAt ctxStage "v1" 0).view_state = ViewState.input LastSelected.values ∧
    (∃ sel, sel < getTypeChoicesVec.length ∧
      (nextInputChoice)^[2] (stageTypeAt ctxStage "v1" 0) = stageTypeAt ctxStage "v1" sel ∧
      ∃ rty, confirmInput storeAlpha (stageTypeAt ctxStage "v1" sel)
          = some (stageData ctxStage "v1" rty, some ActionTag.stage) ∧
        (stageData ctxStage "v1" rty).view_state = ViewState.input LastSelected.values ∧
        confirmInput storeAlpha (setText (stageData ctxStage "v1" rty) "42")
          = some (inputDone ctxStage, some ActionTag.noAction) ∧
        (inputDone ctxStage).view_state = ViewState.values) :=
  claim_C3_staged_sequencing storeAlpha ctxStage ksStage "alpha" [] "v1" "42" 2
    rfl rfl rfl rfl

end Regcli
